import Mathlib

/-!
Verification of the sol-parser-sdk decoders: a shallow embedding of the
instruction, log and account decoders of the repository, together with
theorems settling the specification claims.

Byte buffers are modelled as `List Nat` (each element a byte value),
machine integers as `Nat`/`Int` with explicit little-endian assembly,
and fallible Rust code as `Option`.  The unchecked reader family of the
hot log path is modelled with an explicit `RunResult` type whose `undef`
constructor records that execution does not return normally (an
out-of-bounds unchecked read, i.e. undefined behaviour, or a slice
panic).
-/

namespace SolParser

/-- A byte of wire data (value `0 ≤ b < 256` for well-formed buffers). -/
abbrev Byte := Nat

/-- A 32-byte public key, modelled as its byte list (value equality). -/
abbrev Pubkey := List Byte

/-- `Pubkey::default()` — the zero public key. -/
def Pubkey.zero : Pubkey := List.replicate 32 0

/-- Little-endian value of a byte list: `u64::from_le_bytes` and friends. -/
def leNat : List Byte → Nat
  | [] => 0
  | b :: bs => b + 256 * leNat bs

/-- The sub-buffer `data[off .. off+len]` (shorter when past the end). -/
def sliceBytes (data : List Byte) (off len : Nat) : List Byte :=
  (data.drop off).take len

/-- Two's-complement reading of a 64-bit little-endian value as `i64`. -/
def toI64 (n : Nat) : Int :=
  if n < 2 ^ 63 then (n : Int) else (n : Int) - 2 ^ 64

/-- Little-endian byte encoding of a number into `w` bytes. -/
def leBytes : Nat → Nat → List Byte
  | 0, _ => []
  | w + 1, n => n % 256 :: leBytes w (n / 256)

/-- Outcome of running a piece of code that may fail to return normally:
`ok a` is a normal return, `undef` records an abnormal termination (an
out-of-bounds unchecked pointer read — undefined behaviour — or an
out-of-range slice panic). -/
inductive RunResult (α : Type) where
  | ok (a : α)
  | undef
deriving DecidableEq

/-- Sequencing of possibly-aborting computations. -/
def RunResult.bind {α β : Type} : RunResult α → (α → RunResult β) → RunResult β
  | .ok a, f => f a
  | .undef, _ => RunResult.undef

instance : Monad RunResult where
  pure := RunResult.ok
  bind := RunResult.bind

@[simp] theorem RunResult.bind_ok {α β : Type} (a : α) (f : α → RunResult β) :
    (RunResult.ok a >>= f) = f a := rfl

@[simp] theorem RunResult.bind_undef {α β : Type} (f : α → RunResult β) :
    ((RunResult.undef : RunResult α) >>= f) = RunResult.undef := rfl

/-! ## Event model

`src/src/core/events.rs` is not part of the provided sources; the field
lists below are the ones the decoders under `src/` assign (which fix the
field names and types), with `EventMetadata` as described in §3 of the
spec.  The log-side and instruction-side PumpSwap structs are kept as
separate record types because the two constructors in the source
populate disjoint field sets. -/

structure EventMetadata where
  signature : Nat
  slot : Nat
  tx_index : Nat
  block_time_us : Int
  grpc_recv_us : Int
deriving DecidableEq

/-- PumpSwap Buy log event (`parse_buy_event_optimized`); the source
fills the remaining struct fields with `Default::default()`, which adds
no input-dependent data. -/
structure PumpSwapBuyEvent where
  metadata : EventMetadata
  timestamp : Int
  base_amount_out : Nat
  max_quote_amount_in : Nat
  user_base_token_reserves : Nat
  user_quote_token_reserves : Nat
  pool_base_token_reserves : Nat
  pool_quote_token_reserves : Nat
  quote_amount_in : Nat
  lp_fee_basis_points : Nat
  lp_fee : Nat
  protocol_fee_basis_points : Nat
  protocol_fee : Nat
  quote_amount_in_with_lp_fee : Nat
  user_quote_amount_in : Nat
  pool : Pubkey
  user : Pubkey
  user_base_token_account : Pubkey
  user_quote_token_account : Pubkey
  protocol_fee_recipient : Pubkey
  protocol_fee_recipient_token_account : Pubkey
  coin_creator : Pubkey
  coin_creator_fee_basis_points : Nat
  coin_creator_fee : Nat
  track_volume : Bool
  total_unclaimed_tokens : Nat
  total_claimed_tokens : Nat
  current_sol_volume : Nat
  last_update_timestamp : Int
deriving DecidableEq

/-- Orca Whirlpool Traded log event (`parse_traded_event`). -/
structure OrcaWhirlpoolSwapEvent where
  metadata : EventMetadata
  whirlpool : Pubkey
  a_to_b : Bool
  pre_sqrt_price : Nat
  post_sqrt_price : Nat
  input_amount : Nat
  output_amount : Nat
  input_transfer_fee : Nat
  output_transfer_fee : Nat
  lp_fee : Nat
  protocol_fee : Nat
deriving DecidableEq

/-- Raydium AMM V4 swap event (`parse_swap_base_in_instruction` /
`parse_swap_base_out_instruction`); `amm_target_orders` is assigned the
raw `get_account(accounts, 4)` and is therefore an optional key. -/
structure RaydiumAmmV4SwapEvent where
  metadata : EventMetadata
  amount_in : Nat
  minimum_amount_out : Nat
  max_amount_in : Nat
  amount_out : Nat
  token_program : Pubkey
  amm : Pubkey
  amm_authority : Pubkey
  amm_open_orders : Pubkey
  amm_target_orders : Option Pubkey
  pool_coin_token_account : Pubkey
  pool_pc_token_account : Pubkey
  serum_program : Pubkey
  serum_market : Pubkey
  serum_bids : Pubkey
  serum_asks : Pubkey
  serum_event_queue : Pubkey
  serum_coin_vault_account : Pubkey
  serum_pc_vault_account : Pubkey
  serum_vault_signer : Pubkey
  user_source_token_account : Pubkey
  user_destination_token_account : Pubkey
  user_source_owner : Pubkey
deriving DecidableEq

structure RaydiumAmmV4DepositEvent where
  metadata : EventMetadata
  max_coin_amount : Nat
  max_pc_amount : Nat
  base_side : Nat
  token_program : Pubkey
  amm : Pubkey
  amm_authority : Pubkey
  amm_open_orders : Pubkey
  amm_target_orders : Pubkey
  lp_mint_address : Pubkey
  pool_coin_token_account : Pubkey
  pool_pc_token_account : Pubkey
  serum_market : Pubkey
  user_coin_token_account : Pubkey
  user_pc_token_account : Pubkey
  user_lp_token_account : Pubkey
  user_owner : Pubkey
  serum_event_queue : Pubkey
deriving DecidableEq

structure RaydiumAmmV4WithdrawEvent where
  metadata : EventMetadata
  amount : Nat
  token_program : Pubkey
  amm : Pubkey
  amm_authority : Pubkey
  amm_open_orders : Pubkey
  amm_target_orders : Pubkey
  lp_mint_address : Pubkey
  pool_coin_token_account : Pubkey
  pool_pc_token_account : Pubkey
  pool_withdraw_queue : Pubkey
  pool_temp_lp_token_account : Pubkey
  serum_program : Pubkey
  serum_market : Pubkey
  serum_coin_vault_account : Pubkey
  serum_pc_vault_account : Pubkey
  serum_vault_signer : Pubkey
  user_lp_token_account : Pubkey
  user_coin_token_account : Pubkey
  user_pc_token_account : Pubkey
  user_owner : Pubkey
  serum_event_queue : Pubkey
  serum_bids : Pubkey
  serum_asks : Pubkey
deriving DecidableEq

structure RaydiumAmmV4Initialize2Event where
  metadata : EventMetadata
  nonce : Byte
  open_time : Nat
  init_pc_amount : Nat
  init_coin_amount : Nat
  token_program : Pubkey
  spl_associated_token_account : Pubkey
  system_program : Pubkey
  rent : Pubkey
  amm : Pubkey
  amm_authority : Pubkey
  amm_open_orders : Pubkey
  lp_mint : Pubkey
  coin_mint : Pubkey
  pc_mint : Pubkey
  pool_coin_token_account : Pubkey
  pool_pc_token_account : Pubkey
  pool_withdraw_queue : Pubkey
  amm_target_orders : Pubkey
  pool_temp_lp : Pubkey
  serum_program : Pubkey
  serum_market : Pubkey
  user_wallet : Pubkey
  user_token_coin : Pubkey
  user_token_pc : Pubkey
  user_lp_token_account : Pubkey
deriving DecidableEq

structure RaydiumAmmV4WithdrawPnlEvent where
  metadata : EventMetadata
  token_program : Pubkey
  amm : Pubkey
  amm_config : Pubkey
  amm_authority : Pubkey
  amm_open_orders : Pubkey
  pool_coin_token_account : Pubkey
  pool_pc_token_account : Pubkey
  coin_pnl_token_account : Pubkey
  pc_pnl_token_account : Pubkey
  pnl_owner : Pubkey
  amm_target_orders : Pubkey
  serum_program : Pubkey
  serum_market : Pubkey
  serum_event_queue : Pubkey
  serum_coin_vault_account : Pubkey
  serum_pc_vault_account : Pubkey
  serum_vault_signer : Pubkey
deriving DecidableEq

/-- PumpSwap Buy instruction event (`parse_buy_instruction`). -/
structure PumpSwapBuyInstrEvent where
  metadata : EventMetadata
  pool_id : Pubkey
  user : Pubkey
  token_mint : Pubkey
  sol_amount : Nat
  token_amount : Nat
  price : Nat
  slippage : Nat
deriving DecidableEq

/-- PumpSwap Sell instruction event (`parse_sell_instruction`). -/
structure PumpSwapSellInstrEvent where
  metadata : EventMetadata
  pool_id : Pubkey
  user : Pubkey
  token_mint : Pubkey
  token_amount : Nat
  sol_amount : Nat
  price : Nat
  slippage : Nat
deriving DecidableEq

/-- PumpSwap CreatePool instruction event (`parse_create_pool_instruction`). -/
structure PumpSwapCreatePoolInstrEvent where
  metadata : EventMetadata
  pool_id : Pubkey
  creator : Pubkey
  token_mint : Pubkey
  initial_sol_amount : Nat
  initial_token_amount : Nat
  fee_rate : Nat
deriving DecidableEq

structure TokenInfoEvent where
  metadata : EventMetadata
  pubkey : Pubkey
  executable : Bool
  lamports : Nat
  owner : Pubkey
  rent_epoch : Nat
  supply : Nat
  decimals : Byte
deriving DecidableEq

structure TokenAccountEvent where
  metadata : EventMetadata
  pubkey : Pubkey
  executable : Bool
  lamports : Nat
  owner : Pubkey
  rent_epoch : Nat
  amount : Option Nat
  token_owner : Pubkey
deriving DecidableEq

structure NonceAccountEvent where
  metadata : EventMetadata
  pubkey : Pubkey
  executable : Bool
  lamports : Nat
  owner : Pubkey
  rent_epoch : Nat
  nonce : Pubkey
  authority : Pubkey
deriving DecidableEq

/-- The closed event union, restricted to the variants produced by the
decoders modelled in this file. -/
inductive DexEvent where
  | PumpSwapBuy (e : PumpSwapBuyEvent)
  | OrcaWhirlpoolSwap (e : OrcaWhirlpoolSwapEvent)
  | RaydiumAmmV4Swap (e : RaydiumAmmV4SwapEvent)
  | RaydiumAmmV4Deposit (e : RaydiumAmmV4DepositEvent)
  | RaydiumAmmV4Withdraw (e : RaydiumAmmV4WithdrawEvent)
  | RaydiumAmmV4Initialize2 (e : RaydiumAmmV4Initialize2Event)
  | RaydiumAmmV4WithdrawPnl (e : RaydiumAmmV4WithdrawPnlEvent)
  | PumpSwapBuyInstr (e : PumpSwapBuyInstrEvent)
  | PumpSwapSellInstr (e : PumpSwapSellInstrEvent)
  | PumpSwapCreatePoolInstr (e : PumpSwapCreatePoolInstrEvent)
  | TokenInfo (e : TokenInfoEvent)
  | TokenAccount (e : TokenAccountEvent)
  | NonceAccount (e : NonceAccountEvent)
deriving DecidableEq

/-! ## Byte-reader toolkit

Translated from `src/src/instr/utils.rs`.  The identically specified
bounds-checked readers used by the log decoders live in the absent file
`src/src/logs/utils.rs`; per spec §4.1 every checked reader returns the
decoded value when `offset + width ≤ len(buffer)` and failure otherwise,
with `bool` width 1 and nonzero = true, so the log-side readers are
modelled by these same functions. -/

/-- `read_u64_le` of `src/src/instr/utils.rs`. -/
def read_u64_le (data : List Byte) (off : Nat) : Option Nat :=
  if off + 8 ≤ data.length then some (leNat (sliceBytes data off 8)) else none

/-- `read_u32_le` of `src/src/instr/utils.rs`. -/
def read_u32_le (data : List Byte) (off : Nat) : Option Nat :=
  if off + 4 ≤ data.length then some (leNat (sliceBytes data off 4)) else none

/-- `read_u16_le` of `src/src/instr/utils.rs`. -/
def read_u16_le (data : List Byte) (off : Nat) : Option Nat :=
  if off + 2 ≤ data.length then some (leNat (sliceBytes data off 2)) else none

/-- `read_u8` of `src/src/instr/utils.rs`. -/
def read_u8 (data : List Byte) (off : Nat) : Option Byte :=
  data.get? off

/-- `read_u128_le` of `src/src/instr/utils.rs`. -/
def read_u128_le (data : List Byte) (off : Nat) : Option Nat :=
  if off + 16 ≤ data.length then some (leNat (sliceBytes data off 16)) else none

/-- `read_bool` of `src/src/instr/utils.rs`: any nonzero byte is `true`. -/
def read_bool (data : List Byte) (off : Nat) : Option Bool :=
  (data.get? off).map (fun b => b != 0)

/-- `read_pubkey` of `src/src/instr/utils.rs`. -/
def read_pubkey (data : List Byte) (off : Nat) : Option Pubkey :=
  if off + 32 ≤ data.length then some (sliceBytes data off 32) else none

/-- `get_account` of `src/src/instr/utils.rs`. -/
def get_account (accounts : List Pubkey) (index : Nat) : Option Pubkey :=
  accounts.get? index

/-- `create_metadata_simple` of `src/src/instr/utils.rs`: the anchor key
is ignored and `grpc_recv_us` is stamped from a clock read made inside
the call; the clock value is the explicit `now_us` argument here. -/
def create_metadata_simple (signature slot tx_index : Nat)
    (block_time_us : Option Int) (_program_id : Pubkey) (now_us : Int) :
    EventMetadata :=
  { signature, slot, tx_index,
    block_time_us := block_time_us.getD 0,
    grpc_recv_us := now_us }

/-- Modelled from the spec: the metadata builder of the absent
`src/src/logs/utils.rs`, which per §4.4 step 3 receives `grpc_recv_us`
from the caller's context (the log decoders pass it explicitly). -/
def create_metadata_log (signature slot tx_index : Nat)
    (block_time_us : Option Int) (_anchor : Pubkey) (grpc_recv_us : Int) :
    EventMetadata :=
  { signature, slot, tx_index,
    block_time_us := block_time_us.getD 0,
    grpc_recv_us }

/-! ## Raydium AMM V4 instruction decoder (`src/src/instr/raydium_amm.rs`) -/

namespace RaydiumAmm

inductive RaydiumAmmV4Instruction where
  | initialize2
  | deposit
  | withdraw
  | withdrawPnl
  | swapBaseIn
  | swapBaseOut
deriving DecidableEq

/-- `RaydiumAmmV4Instruction::from_u8`. -/
def RaydiumAmmV4Instruction.from_u8 (value : Byte) :
    Option RaydiumAmmV4Instruction :=
  match value with
  | 1 => some .initialize2
  | 3 => some .deposit
  | 4 => some .withdraw
  | 7 => some .withdrawPnl
  | 9 => some .swapBaseIn
  | 11 => some .swapBaseOut
  | _ => none

/-- `parse_swap_base_in_instruction`. -/
def parse_swap_base_in_instruction (data : List Byte) (accounts : List Pubkey)
    (signature slot tx_index : Nat) (block_time_us : Option Int)
    (now_us : Int) : Option DexEvent := do
  let amount_in ← read_u64_le data 0
  let minimum_amount_out ← read_u64_le data 8
  let amm ← get_account accounts 1
  let metadata := create_metadata_simple signature slot tx_index block_time_us amm now_us
  some (.RaydiumAmmV4Swap {
    metadata, amount_in, minimum_amount_out,
    max_amount_in := 0,
    amount_out := 0,
    token_program := (get_account accounts 0).getD Pubkey.zero,
    amm,
    amm_authority := (get_account accounts 2).getD Pubkey.zero,
    amm_open_orders := (get_account accounts 3).getD Pubkey.zero,
    amm_target_orders := get_account accounts 4,
    pool_coin_token_account := (get_account accounts 5).getD Pubkey.zero,
    pool_pc_token_account := (get_account accounts 6).getD Pubkey.zero,
    serum_program := (get_account accounts 7).getD Pubkey.zero,
    serum_market := (get_account accounts 8).getD Pubkey.zero,
    serum_bids := (get_account accounts 9).getD Pubkey.zero,
    serum_asks := (get_account accounts 10).getD Pubkey.zero,
    serum_event_queue := (get_account accounts 11).getD Pubkey.zero,
    serum_coin_vault_account := (get_account accounts 12).getD Pubkey.zero,
    serum_pc_vault_account := (get_account accounts 13).getD Pubkey.zero,
    serum_vault_signer := (get_account accounts 14).getD Pubkey.zero,
    user_source_token_account := (get_account accounts 15).getD Pubkey.zero,
    user_destination_token_account := (get_account accounts 16).getD Pubkey.zero,
    user_source_owner := (get_account accounts 17).getD Pubkey.zero })

/-- `parse_swap_base_out_instruction`. -/
def parse_swap_base_out_instruction (data : List Byte) (accounts : List Pubkey)
    (signature slot tx_index : Nat) (block_time_us : Option Int)
    (now_us : Int) : Option DexEvent := do
  let max_amount_in ← read_u64_le data 0
  let amount_out ← read_u64_le data 8
  let amm ← get_account accounts 1
  let metadata := create_metadata_simple signature slot tx_index block_time_us amm now_us
  some (.RaydiumAmmV4Swap {
    metadata,
    amount_in := 0,
    minimum_amount_out := 0,
    max_amount_in, amount_out,
    token_program := (get_account accounts 0).getD Pubkey.zero,
    amm,
    amm_authority := (get_account accounts 2).getD Pubkey.zero,
    amm_open_orders := (get_account accounts 3).getD Pubkey.zero,
    amm_target_orders := get_account accounts 4,
    pool_coin_token_account := (get_account accounts 5).getD Pubkey.zero,
    pool_pc_token_account := (get_account accounts 6).getD Pubkey.zero,
    serum_program := (get_account accounts 7).getD Pubkey.zero,
    serum_market := (get_account accounts 8).getD Pubkey.zero,
    serum_bids := (get_account accounts 9).getD Pubkey.zero,
    serum_asks := (get_account accounts 10).getD Pubkey.zero,
    serum_event_queue := (get_account accounts 11).getD Pubkey.zero,
    serum_coin_vault_account := (get_account accounts 12).getD Pubkey.zero,
    serum_pc_vault_account := (get_account accounts 13).getD Pubkey.zero,
    serum_vault_signer := (get_account accounts 14).getD Pubkey.zero,
    user_source_token_account := (get_account accounts 15).getD Pubkey.zero,
    user_destination_token_account := (get_account accounts 16).getD Pubkey.zero,
    user_source_owner := (get_account accounts 17).getD Pubkey.zero })

/-- `parse_deposit_instruction`. -/
def parse_deposit_instruction (data : List Byte) (accounts : List Pubkey)
    (signature slot tx_index : Nat) (block_time_us : Option Int)
    (now_us : Int) : Option DexEvent := do
  let max_coin_amount ← read_u64_le data 0
  let max_pc_amount ← read_u64_le data 8
  let base_side ← read_u64_le data 16
  let amm ← get_account accounts 1
  let metadata := create_metadata_simple signature slot tx_index block_time_us amm now_us
  some (.RaydiumAmmV4Deposit {
    metadata, max_coin_amount, max_pc_amount, base_side,
    token_program := (get_account accounts 0).getD Pubkey.zero,
    amm,
    amm_authority := (get_account accounts 2).getD Pubkey.zero,
    amm_open_orders := (get_account accounts 3).getD Pubkey.zero,
    amm_target_orders := (get_account accounts 4).getD Pubkey.zero,
    lp_mint_address := (get_account accounts 5).getD Pubkey.zero,
    pool_coin_token_account := (get_account accounts 6).getD Pubkey.zero,
    pool_pc_token_account := (get_account accounts 7).getD Pubkey.zero,
    serum_market := (get_account accounts 8).getD Pubkey.zero,
    user_coin_token_account := (get_account accounts 9).getD Pubkey.zero,
    user_pc_token_account := (get_account accounts 10).getD Pubkey.zero,
    user_lp_token_account := (get_account accounts 11).getD Pubkey.zero,
    user_owner := (get_account accounts 12).getD Pubkey.zero,
    serum_event_queue := (get_account accounts 13).getD Pubkey.zero })

/-- `parse_withdraw_instruction`. -/
def parse_withdraw_instruction (data : List Byte) (accounts : List Pubkey)
    (signature slot tx_index : Nat) (block_time_us : Option Int)
    (now_us : Int) : Option DexEvent := do
  let amount ← read_u64_le data 0
  let amm ← get_account accounts 1
  let metadata := create_metadata_simple signature slot tx_index block_time_us amm now_us
  some (.RaydiumAmmV4Withdraw {
    metadata, amount,
    token_program := (get_account accounts 0).getD Pubkey.zero,
    amm,
    amm_authority := (get_account accounts 2).getD Pubkey.zero,
    amm_open_orders := (get_account accounts 3).getD Pubkey.zero,
    amm_target_orders := (get_account accounts 4).getD Pubkey.zero,
    lp_mint_address := (get_account accounts 5).getD Pubkey.zero,
    pool_coin_token_account := (get_account accounts 6).getD Pubkey.zero,
    pool_pc_token_account := (get_account accounts 7).getD Pubkey.zero,
    pool_withdraw_queue := (get_account accounts 8).getD Pubkey.zero,
    pool_temp_lp_token_account := (get_account accounts 9).getD Pubkey.zero,
    serum_program := (get_account accounts 10).getD Pubkey.zero,
    serum_market := (get_account accounts 11).getD Pubkey.zero,
    serum_coin_vault_account := (get_account accounts 12).getD Pubkey.zero,
    serum_pc_vault_account := (get_account accounts 13).getD Pubkey.zero,
    serum_vault_signer := (get_account accounts 14).getD Pubkey.zero,
    user_lp_token_account := (get_account accounts 15).getD Pubkey.zero,
    user_coin_token_account := (get_account accounts 16).getD Pubkey.zero,
    user_pc_token_account := (get_account accounts 17).getD Pubkey.zero,
    user_owner := (get_account accounts 18).getD Pubkey.zero,
    serum_event_queue := (get_account accounts 19).getD Pubkey.zero,
    serum_bids := (get_account accounts 20).getD Pubkey.zero,
    serum_asks := (get_account accounts 21).getD Pubkey.zero })

/-- `parse_initialize2_instruction`: identity account at index 4. -/
def parse_initialize2_instruction (data : List Byte) (accounts : List Pubkey)
    (signature slot tx_index : Nat) (block_time_us : Option Int)
    (now_us : Int) : Option DexEvent := do
  let nonce ← data.get? 0
  let open_time ← read_u64_le data 1
  let init_pc_amount ← read_u64_le data 9
  let init_coin_amount ← read_u64_le data 17
  let amm ← get_account accounts 4
  let metadata := create_metadata_simple signature slot tx_index block_time_us amm now_us
  some (.RaydiumAmmV4Initialize2 {
    metadata, nonce, open_time, init_pc_amount, init_coin_amount,
    token_program := (get_account accounts 0).getD Pubkey.zero,
    spl_associated_token_account := (get_account accounts 1).getD Pubkey.zero,
    system_program := (get_account accounts 2).getD Pubkey.zero,
    rent := (get_account accounts 3).getD Pubkey.zero,
    amm,
    amm_authority := (get_account accounts 5).getD Pubkey.zero,
    amm_open_orders := (get_account accounts 6).getD Pubkey.zero,
    lp_mint := (get_account accounts 7).getD Pubkey.zero,
    coin_mint := (get_account accounts 8).getD Pubkey.zero,
    pc_mint := (get_account accounts 9).getD Pubkey.zero,
    pool_coin_token_account := (get_account accounts 10).getD Pubkey.zero,
    pool_pc_token_account := (get_account accounts 11).getD Pubkey.zero,
    pool_withdraw_queue := (get_account accounts 12).getD Pubkey.zero,
    amm_target_orders := (get_account accounts 13).getD Pubkey.zero,
    pool_temp_lp := (get_account accounts 14).getD Pubkey.zero,
    serum_program := (get_account accounts 15).getD Pubkey.zero,
    serum_market := (get_account accounts 16).getD Pubkey.zero,
    user_wallet := (get_account accounts 17).getD Pubkey.zero,
    user_token_coin := (get_account accounts 18).getD Pubkey.zero,
    user_token_pc := (get_account accounts 19).getD Pubkey.zero,
    user_lp_token_account := (get_account accounts 20).getD Pubkey.zero })

/-- `parse_withdraw_pnl_instruction`. -/
def parse_withdraw_pnl_instruction (_data : List Byte) (accounts : List Pubkey)
    (signature slot tx_index : Nat) (block_time_us : Option Int)
    (now_us : Int) : Option DexEvent := do
  let amm ← get_account accounts 1
  let metadata := create_metadata_simple signature slot tx_index block_time_us amm now_us
  some (.RaydiumAmmV4WithdrawPnl {
    metadata,
    token_program := (get_account accounts 0).getD Pubkey.zero,
    amm,
    amm_config := (get_account accounts 2).getD Pubkey.zero,
    amm_authority := (get_account accounts 3).getD Pubkey.zero,
    amm_open_orders := (get_account accounts 4).getD Pubkey.zero,
    pool_coin_token_account := (get_account accounts 5).getD Pubkey.zero,
    pool_pc_token_account := (get_account accounts 6).getD Pubkey.zero,
    coin_pnl_token_account := (get_account accounts 7).getD Pubkey.zero,
    pc_pnl_token_account := (get_account accounts 8).getD Pubkey.zero,
    pnl_owner := (get_account accounts 9).getD Pubkey.zero,
    amm_target_orders := (get_account accounts 10).getD Pubkey.zero,
    serum_program := (get_account accounts 11).getD Pubkey.zero,
    serum_market := (get_account accounts 12).getD Pubkey.zero,
    serum_event_queue := (get_account accounts 13).getD Pubkey.zero,
    serum_coin_vault_account := (get_account accounts 14).getD Pubkey.zero,
    serum_pc_vault_account := (get_account accounts 15).getD Pubkey.zero,
    serum_vault_signer := (get_account accounts 16).getD Pubkey.zero })

/-- `parse_instruction` of `src/src/instr/raydium_amm.rs`: dispatch on
the 1-byte discriminator, the remaining payload goes to the variant. -/
def parse_instruction (instruction_data : List Byte) (accounts : List Pubkey)
    (signature slot tx_index : Nat) (block_time_us : Option Int)
    (now_us : Int) : Option DexEvent :=
  match instruction_data with
  | [] => none
  | discriminator_byte :: data =>
    match RaydiumAmmV4Instruction.from_u8 discriminator_byte with
    | none => none
    | some .swapBaseIn =>
      parse_swap_base_in_instruction data accounts signature slot tx_index block_time_us now_us
    | some .swapBaseOut =>
      parse_swap_base_out_instruction data accounts signature slot tx_index block_time_us now_us
    | some .deposit =>
      parse_deposit_instruction data accounts signature slot tx_index block_time_us now_us
    | some .withdraw =>
      parse_withdraw_instruction data accounts signature slot tx_index block_time_us now_us
    | some .initialize2 =>
      parse_initialize2_instruction data accounts signature slot tx_index block_time_us now_us
    | some .withdrawPnl =>
      parse_withdraw_pnl_instruction data accounts signature slot tx_index block_time_us now_us

end RaydiumAmm

/-! ## PumpSwap instruction decoder (`src/src/instr/pump_amm.rs`) -/

namespace PumpAmmInstr

/-- 8-byte instruction discriminators of `src/src/instr/pump_amm.rs`. -/
def BUY_DISC : List Byte := [102, 6, 61, 18, 1, 218, 235, 234]

def SELL_DISC : List Byte := [51, 230, 133, 164, 1, 127, 131, 173]

def CREATE_POOL_DISC : List Byte := [233, 146, 209, 142, 207, 104, 64, 188]

/-- `parse_buy_instruction`: identity account at index 0. -/
def parse_buy_instruction (data : List Byte) (accounts : List Pubkey)
    (signature slot tx_index : Nat) (block_time_us : Option Int)
    (now_us : Int) : Option DexEvent := do
  let sol_amount ← read_u64_le data 0
  let slippage ← read_u16_le data 8
  let token_mint ← get_account accounts 0
  let metadata := create_metadata_simple signature slot tx_index block_time_us token_mint now_us
  some (.PumpSwapBuyInstr {
    metadata,
    pool_id := (get_account accounts 1).getD Pubkey.zero,
    user := (get_account accounts 2).getD Pubkey.zero,
    token_mint, sol_amount,
    token_amount := 0,
    price := 0,
    slippage })

/-- `parse_sell_instruction`: identity account at index 0. -/
def parse_sell_instruction (data : List Byte) (accounts : List Pubkey)
    (signature slot tx_index : Nat) (block_time_us : Option Int)
    (now_us : Int) : Option DexEvent := do
  let token_amount ← read_u64_le data 0
  let slippage ← read_u16_le data 8
  let token_mint ← get_account accounts 0
  let metadata := create_metadata_simple signature slot tx_index block_time_us token_mint now_us
  some (.PumpSwapSellInstr {
    metadata,
    pool_id := (get_account accounts 1).getD Pubkey.zero,
    user := (get_account accounts 2).getD Pubkey.zero,
    token_mint, token_amount,
    sol_amount := 0,
    price := 0,
    slippage })

/-- `parse_create_pool_instruction`: identity account at index 0. -/
def parse_create_pool_instruction (data : List Byte) (accounts : List Pubkey)
    (signature slot tx_index : Nat) (block_time_us : Option Int)
    (now_us : Int) : Option DexEvent := do
  let initial_sol_reserve ← read_u64_le data 0
  let initial_token_reserve ← read_u64_le data 8
  let token_mint ← get_account accounts 0
  let metadata := create_metadata_simple signature slot tx_index block_time_us token_mint now_us
  some (.PumpSwapCreatePoolInstr {
    metadata,
    pool_id := (get_account accounts 2).getD Pubkey.zero,
    creator := (get_account accounts 1).getD Pubkey.zero,
    token_mint,
    initial_sol_amount := initial_sol_reserve,
    initial_token_amount := initial_token_reserve,
    fee_rate := 100 })

/-- `parse_instruction` of `src/src/instr/pump_amm.rs`: 8-byte
discriminator dispatch. -/
def parse_instruction (instruction_data : List Byte) (accounts : List Pubkey)
    (signature slot tx_index : Nat) (block_time_us : Option Int)
    (now_us : Int) : Option DexEvent :=
  if instruction_data.length < 8 then none
  else
    let discriminator := instruction_data.take 8
    let data := instruction_data.drop 8
    if discriminator = BUY_DISC then
      parse_buy_instruction data accounts signature slot tx_index block_time_us now_us
    else if discriminator = SELL_DISC then
      parse_sell_instruction data accounts signature slot tx_index block_time_us now_us
    else if discriminator = CREATE_POOL_DISC then
      parse_create_pool_instruction data accounts signature slot tx_index block_time_us now_us
    else none

end PumpAmmInstr

/-! ## PumpSwap log decoder, hot path (`src/src/logs/pump_amm.rs`)

The unchecked readers perform unaligned pointer reads with no bounds
check; a read past the end of the record is undefined behaviour, which
the model records as `RunResult.undef`. -/

namespace PumpAmmLog

/-- `read_u64_unchecked`: `undef` when the read goes past the buffer. -/
def read_u64_unchecked (data : List Byte) (off : Nat) : RunResult Nat :=
  if off + 8 ≤ data.length then .ok (leNat (sliceBytes data off 8)) else RunResult.undef

/-- `read_i64_unchecked`. -/
def read_i64_unchecked (data : List Byte) (off : Nat) : RunResult Int :=
  if off + 8 ≤ data.length then .ok (toI64 (leNat (sliceBytes data off 8))) else RunResult.undef

/-- `read_u16_unchecked`. -/
def read_u16_unchecked (data : List Byte) (off : Nat) : RunResult Nat :=
  if off + 2 ≤ data.length then .ok (leNat (sliceBytes data off 2)) else RunResult.undef

/-- `read_u8_unchecked`. -/
def read_u8_unchecked (data : List Byte) (off : Nat) : RunResult Byte :=
  if off + 1 ≤ data.length then .ok (data.getD off 0) else RunResult.undef

/-- `read_bool_unchecked`: note the source compares the byte with `1`
(`*data.get_unchecked(offset) == 1`), so only the byte value 1 decodes
to `true`. -/
def read_bool_unchecked (data : List Byte) (off : Nat) : RunResult Bool :=
  if off + 1 ≤ data.length then .ok (data.getD off 0 == 1) else RunResult.undef

/-- `read_pubkey_unchecked`. -/
def read_pubkey_unchecked (data : List Byte) (off : Nat) : RunResult Pubkey :=
  if off + 32 ≤ data.length then .ok (sliceBytes data off 32) else RunResult.undef

/-- The single up-front bound of `parse_buy_event_optimized`:
`REQUIRED_LEN = 14 * 8 + 7 * 32 + 1 = 337`. -/
def BUY_REQUIRED_LEN : Nat := 14 * 8 + 7 * 32 + 1

/-- `parse_buy_event_optimized` of `src/src/logs/pump_amm.rs`: one
up-front length check against `BUY_REQUIRED_LEN`, then a fixed sequence
of unchecked reads, the last at offsets 377..385. -/
def parse_buy_event_optimized (data : List Byte)
    (signature slot tx_index : Nat) (block_time_us : Option Int)
    (grpc_recv_us : Int) : RunResult (Option DexEvent) :=
  if data.length < BUY_REQUIRED_LEN then .ok none
  else do
    let timestamp ← read_i64_unchecked data 0
    let base_amount_out ← read_u64_unchecked data 8
    let max_quote_amount_in ← read_u64_unchecked data 16
    let user_base_token_reserves ← read_u64_unchecked data 24
    let user_quote_token_reserves ← read_u64_unchecked data 32
    let pool_base_token_reserves ← read_u64_unchecked data 40
    let pool_quote_token_reserves ← read_u64_unchecked data 48
    let quote_amount_in ← read_u64_unchecked data 56
    let lp_fee_basis_points ← read_u64_unchecked data 64
    let lp_fee ← read_u64_unchecked data 72
    let protocol_fee_basis_points ← read_u64_unchecked data 80
    let protocol_fee ← read_u64_unchecked data 88
    let quote_amount_in_with_lp_fee ← read_u64_unchecked data 96
    let user_quote_amount_in ← read_u64_unchecked data 104
    let pool ← read_pubkey_unchecked data 112
    let user ← read_pubkey_unchecked data 144
    let user_base_token_account ← read_pubkey_unchecked data 176
    let user_quote_token_account ← read_pubkey_unchecked data 208
    let protocol_fee_recipient ← read_pubkey_unchecked data 240
    let protocol_fee_recipient_token_account ← read_pubkey_unchecked data 272
    let coin_creator ← read_pubkey_unchecked data 304
    let coin_creator_fee_basis_points ← read_u64_unchecked data 336
    let coin_creator_fee ← read_u64_unchecked data 344
    let track_volume ← read_bool_unchecked data 352
    let total_unclaimed_tokens ← read_u64_unchecked data 353
    let total_claimed_tokens ← read_u64_unchecked data 361
    let current_sol_volume ← read_u64_unchecked data 369
    let last_update_timestamp ← read_i64_unchecked data 377
    let metadata : EventMetadata :=
      { signature, slot, tx_index,
        block_time_us := block_time_us.getD 0,
        grpc_recv_us }
    pure (some (.PumpSwapBuy {
      metadata, timestamp, base_amount_out, max_quote_amount_in,
      user_base_token_reserves, user_quote_token_reserves,
      pool_base_token_reserves, pool_quote_token_reserves,
      quote_amount_in, lp_fee_basis_points, lp_fee,
      protocol_fee_basis_points, protocol_fee,
      quote_amount_in_with_lp_fee, user_quote_amount_in,
      pool, user, user_base_token_account, user_quote_token_account,
      protocol_fee_recipient, protocol_fee_recipient_token_account,
      coin_creator, coin_creator_fee_basis_points, coin_creator_fee,
      track_volume, total_unclaimed_tokens, total_claimed_tokens,
      current_sol_volume, last_update_timestamp }))

end PumpAmmLog

/-! ## Orca Whirlpool log decoder (`src/src/logs/orca_whirlpool.rs`) -/

namespace OrcaLog

/-- `TRADED_EVENT` discriminator. -/
def TRADED_EVENT : List Byte := [225, 202, 73, 175, 147, 43, 160, 150]

/-- `parse_traded_event`: bounds-checked sequential reads, 113 bytes of
fields after the discriminator. -/
def parse_traded_event (data : List Byte)
    (signature slot tx_index : Nat) (block_time_us : Option Int)
    (grpc_recv_us : Int) : Option DexEvent := do
  let whirlpool ← read_pubkey data 0
  let a_to_b ← read_bool data 32
  let pre_sqrt_price ← read_u128_le data 33
  let post_sqrt_price ← read_u128_le data 49
  let input_amount ← read_u64_le data 65
  let output_amount ← read_u64_le data 73
  let input_transfer_fee ← read_u64_le data 81
  let output_transfer_fee ← read_u64_le data 89
  let lp_fee ← read_u64_le data 97
  let protocol_fee ← read_u64_le data 105
  let metadata := create_metadata_log signature slot tx_index block_time_us whirlpool grpc_recv_us
  some (.OrcaWhirlpoolSwap {
    metadata, whirlpool, a_to_b, pre_sqrt_price, post_sqrt_price,
    input_amount, output_amount, input_transfer_fee, output_transfer_fee,
    lp_fee, protocol_fee })

end OrcaLog

/-! ## Account decoders (`src/src/accounts/`) -/

namespace Accounts

/-- `AccountData` of `src/src/accounts/token.rs`. -/
structure AccountData where
  pubkey : Pubkey
  executable : Bool
  lamports : Nat
  owner : Pubkey
  rent_epoch : Nat
  data : List Byte
deriving DecidableEq

/-- `PUMPSWAP_PROGRAM_ID` of `src/src/accounts/program_ids.rs`
(`pAMMBay6oceH9fJKBRHGP5D4bD4sWpmSwMn52FMfXEA`, decoded to bytes). -/
def PUMPSWAP_PROGRAM_ID : Pubkey :=
  [12, 20, 222, 252, 130, 94, 198, 118, 148, 37, 8, 24, 187, 101, 64, 101,
   244, 41, 141, 49, 86, 213, 113, 180, 212, 248, 9, 12, 24, 233, 168, 99]

/-- `parse_mint_fast` of `src/src/accounts/token.rs`: requires
`len ≥ 82`, reads `supply` at offset 36 and `decimals` at offset 44. -/
def parse_mint_fast (account : AccountData) (metadata : EventMetadata) :
    Option DexEvent :=
  if account.data.length < 82 then none
  else
    some (.TokenInfo {
      metadata,
      pubkey := account.pubkey,
      executable := account.executable,
      lamports := account.lamports,
      owner := account.owner,
      rent_epoch := account.rent_epoch,
      supply := leNat (sliceBytes account.data 36 8),
      decimals := account.data.getD 44 0 })

/-- `parse_token_fast` of `src/src/accounts/token.rs`: requires
`len ≥ 72`, reads `amount` at offset 64, sets `token_owner` to the
owning program. -/
def parse_token_fast (account : AccountData) (metadata : EventMetadata) :
    Option DexEvent :=
  if account.data.length < 64 + 8 then none
  else
    some (.TokenAccount {
      metadata,
      pubkey := account.pubkey,
      executable := account.executable,
      lamports := account.lamports,
      owner := account.owner,
      rent_epoch := account.rent_epoch,
      amount := some (leNat (sliceBytes account.data 64 8)),
      token_owner := account.owner })

/-- `parse_token_account` of `src/src/accounts/token.rs`: when
`len ≤ 100` the mint decoder is tried first; whenever it yields nothing
(also in the `len ≤ 100` case) control falls through to
`parse_token_fast`. -/
def parse_token_account (account : AccountData) (metadata : EventMetadata) :
    Option DexEvent :=
  if account.data.length ≤ 100 then
    match parse_mint_fast account metadata with
    | some event => some event
    | none => parse_token_fast account metadata
  else parse_token_fast account metadata

/-- The nonce account magic `[1,0,0,0,1,0,0,0]`. -/
def NONCE_MAGIC : List Byte := [1, 0, 0, 0, 1, 0, 0, 0]

/-- `is_nonce_account` of `src/src/accounts/nonce.rs`. -/
def is_nonce_account (data : List Byte) : Bool :=
  8 ≤ data.length && data.take 8 == NONCE_MAGIC

/-- Result of parsing a nonce account body. -/
inductive NonceState where
  | uninitialized
  | initialized (authority : Pubkey) (blockhash : Pubkey) (fee : Nat)
deriving DecidableEq

/-- Modelled from the spec: the standard nonce body decoder
(`solana_account_decoder::parse_nonce`, outside this repository), to
which `src/src/accounts/nonce.rs` delegates.  The body is the bincode
encoding of the versioned nonce state: a little-endian `u32` version
tag (0 = legacy, 1 = current), a little-endian `u32` state tag
(0 = uninitialized, 1 = initialized), and for the initialized state the
32-byte authority, the 32-byte blockhash and the `u64` fee; anything
else is a parse failure (`none`). -/
def parse_nonce (data : List Byte) : Option NonceState :=
  if 8 ≤ data.length then
    let version := leNat (sliceBytes data 0 4)
    let state := leNat (sliceBytes data 4 4)
    if version = 0 ∨ version = 1 then
      if state = 0 then some .uninitialized
      else if state = 1 then
        if 80 ≤ data.length then
          some (.initialized (sliceBytes data 8 32) (sliceBytes data 40 32)
            (leNat (sliceBytes data 72 8)))
        else none
      else none
    else none
  else none

/-- `parse_nonce_account` of `src/src/accounts/nonce.rs`: emit only for
the initialized state, with `nonce` the blockhash and `authority` the
parsed authority. -/
def parse_nonce_account (account : AccountData) (metadata : EventMetadata) :
    Option DexEvent :=
  match parse_nonce account.data with
  | some (.initialized authority blockhash _fee) =>
    some (.NonceAccount {
      metadata,
      pubkey := account.pubkey,
      executable := account.executable,
      lamports := account.lamports,
      owner := account.owner,
      rent_epoch := account.rent_epoch,
      nonce := blockhash,
      authority })
  | some .uninitialized => none
  | none => none

/-- `parse_account_unified` of `src/src/accounts/mod.rs`.  The PumpSwap
branch delegates to `src/src/accounts/pumpswap.rs`, which is not among
the provided sources; that decoder is taken as the parameter
`psParse`, which the claims never reach (their hypotheses exclude the
PumpSwap owner). -/
def parse_account_unified
    (psParse : AccountData → EventMetadata → Option DexEvent)
    (account : AccountData) (metadata : EventMetadata)
    (_event_type_filter : Option Unit) : Option DexEvent :=
  if account.data.isEmpty then none
  else if account.owner = PUMPSWAP_PROGRAM_ID then psParse account metadata
  else if is_nonce_account account.data then parse_nonce_account account metadata
  else parse_token_account account metadata

end Accounts

/-! ## Fast discriminator extraction (`src/src/logs/pump_amm.rs`)

`extract_discriminator_simd` works on the log line text: it locates the
literal `"Program data: "`, trims the tail, checks `trimmed.len() < 12`,
and then slices the first 16 bytes — a slice that panics when the
trimmed tail has length 12..15. -/

namespace PumpAmmLog

/-- First index at which `pat` occurs in `s` (the `memmem::Finder`). -/
def findSubstr (pat : List Char) : List Char → Option Nat
  | [] => if pat.isEmpty then some 0 else none
  | c :: rest =>
    if isPrefixList pat (c :: rest) then some 0
    else (findSubstr pat rest).map (· + 1)
where
  isPrefixList : List Char → List Char → Bool
    | [], _ => true
    | _ :: _, [] => false
    | a :: as, b :: bs => a == b && isPrefixList as bs

/-- Rust `str::trim` for the ASCII whitespace that occurs in log lines. -/
def trimChars (s : List Char) : List Char :=
  ((s.dropWhile isSpaceChar).reverse.dropWhile isSpaceChar).reverse
where
  isSpaceChar (c : Char) : Bool := c == ' ' || c == '\t' || c == '\n' || c == '\r'

/-- Value of a standard-alphabet base64 character. -/
def base64Val (c : Char) : Option Nat :=
  if 'A' ≤ c ∧ c ≤ 'Z' then some (c.toNat - 65)
  else if 'a' ≤ c ∧ c ≤ 'z' then some (c.toNat - 97 + 26)
  else if '0' ≤ c ∧ c ≤ '9' then some (c.toNat - 48 + 52)
  else if c = '+' then some 62
  else if c = '/' then some 63
  else none

/-- Decode unpadded base64 groups of 4 (with a trailing group of 2 or 3). -/
def base64Chunks : List Char → Option (List Byte)
  | [] => some []
  | [_] => none
  | [c1, c2] => do
    let v1 ← base64Val c1
    let v2 ← base64Val c2
    pure [v1 * 4 + v2 / 16]
  | [c1, c2, c3] => do
    let v1 ← base64Val c1
    let v2 ← base64Val c2
    let v3 ← base64Val c3
    pure [v1 * 4 + v2 / 16, v2 % 16 * 16 + v3 / 4]
  | c1 :: c2 :: c3 :: c4 :: rest => do
    let v1 ← base64Val c1
    let v2 ← base64Val c2
    let v3 ← base64Val c3
    let v4 ← base64Val c4
    let bs ← base64Chunks rest
    pure ([v1 * 4 + v2 / 16, v2 % 16 * 16 + v3 / 4, v3 % 4 * 64 + v4] ++ bs)

/-- Standard base64 decoding of a character list (the base64 engine's
`decode_slice` on those characters): strip up to two trailing padding
characters, then decode 6-bit groups; failure for invalid characters or
malformed length. -/
def base64Decode (cs : List Char) : Option (List Byte) :=
  let core := (cs.reverse.dropWhile (· == '=')).reverse
  if cs.length % 4 = 0 ∧ cs.length - core.length ≤ 2 then base64Chunks core
  else none

/-- `extract_discriminator_simd` of `src/src/logs/pump_amm.rs`.  After
the `trimmed.len() < 12` check the source slices
`&trimmed.as_bytes()[..16]`, which panics (`undef`) whenever the trimmed
tail is 12..15 characters long; otherwise the first 16 characters are
base64-decoded into a 12-byte buffer and the first 8 bytes are read as a
little-endian `u64`. -/
def extract_discriminator_simd (log : List Char) : RunResult (Option Nat) :=
  match findSubstr "Program data: ".toList log with
  | none => .ok none
  | some pos =>
    let data_part := log.drop (pos + 14)
    let trimmed := trimChars data_part
    if trimmed.length < 12 then .ok none
    else if trimmed.length < 16 then RunResult.undef
    else
      match base64Decode (trimmed.take 16) with
      | none => .ok none
      | some bytes => .ok (some (leNat ((bytes ++ List.replicate 12 0).take 8)))

/-- `get_event_type_fast` of `src/src/logs/pump_amm.rs`. -/
def get_event_type_fast (log : List Char) : RunResult (Option Nat) :=
  extract_discriminator_simd log

/-- `is_event_type` of `src/src/logs/pump_amm.rs` (panics propagate). -/
def is_event_type (log : List Char) (discriminator : Nat) : RunResult Bool :=
  match extract_discriminator_simd log with
  | .ok r => .ok (r == some discriminator)
  | .undef => RunResult.undef

end PumpAmmLog

/-! ## Claim theorems -/

set_option maxRecDepth 100000

/-- Claim C1.  The one-time length check of the PumpSwap Buy log decoder
is NOT exhaustive: a record body of exactly `BUY_REQUIRED_LEN = 337`
zero bytes passes the check, yet the decoder's subsequent unchecked
reads (from `coin_creator_fee_basis_points` at offset 336 up to
`last_update_timestamp` at offsets 377..385) run past the end of the
buffer, so execution hits an out-of-bounds unchecked read (`undef`)
instead of returning an event or absence. -/
theorem c1_buy_length_check_not_exhaustive :
    PumpAmmLog.parse_buy_event_optimized (List.replicate 337 0) 0 0 0 none 0 =
      RunResult.undef := by
  decide

/-- Claim C10.  `extract_discriminator_simd` (the extractor behind
`get_event_type_fast`) is not total: on a log line whose trimmed base64
tail has length 12 — at least the checked minimum of 12 but shorter than
the 16 bytes then sliced — the slice `&trimmed.as_bytes()[..16]` is out
of range and the call panics (`undef`) instead of returning an option. -/
theorem c10_extract_discriminator_panics :
    PumpAmmLog.extract_discriminator_simd "Program data: AAAAAAAAAAAA".toList =
      RunResult.undef ∧
    PumpAmmLog.get_event_type_fast "Program data: AAAAAAAAAAAA".toList =
      RunResult.undef := by
  constructor <;> decide

/-- Concrete pool key for the Raydium SwapBaseIn scenario. -/
def AMM_POOL_KEY : Pubkey := List.replicate 32 7

/-- Concrete user key for the Raydium SwapBaseIn scenario. -/
def USER_KEY : Pubkey := List.replicate 32 9

/-- Account list of the Raydium SwapBaseIn scenario: 18 slots, slot 1
the pool key and slot 17 the user key. -/
def c3_accounts : List Pubkey :=
  [Pubkey.zero, AMM_POOL_KEY] ++ List.replicate 15 Pubkey.zero ++ [USER_KEY]

/-- Payload of the Raydium SwapBaseIn scenario:
`[0x09] ++ 1_000_000 LE u64 ++ 950_000 LE u64`. -/
def c3_payload : List Byte := 9 :: (leBytes 8 1000000 ++ leBytes 8 950000)

/-- Claim C3.  On payload `[0x09, amount_in = 1_000_000 LE u64,
minimum_amount_out = 950_000 LE u64]` with `accounts[1] = AMM_POOL_KEY`
and `accounts[17] = USER_KEY`, the Raydium AMM V4 instruction decoder
emits `RaydiumAmmV4Swap` with `amount_in = 1_000_000`,
`minimum_amount_out = 950_000`, `amm = AMM_POOL_KEY`,
`user_source_owner = USER_KEY` and the swap-base-out fields
`max_amount_in` and `amount_out` both 0. -/
theorem c3_raydium_swap_base_in_scenario :
    RaydiumAmm.parse_instruction c3_payload c3_accounts 0 0 0 none 0 =
      some (.RaydiumAmmV4Swap {
        metadata := { signature := 0, slot := 0, tx_index := 0,
                      block_time_us := 0, grpc_recv_us := 0 },
        amount_in := 1000000,
        minimum_amount_out := 950000,
        max_amount_in := 0,
        amount_out := 0,
        token_program := Pubkey.zero,
        amm := AMM_POOL_KEY,
        amm_authority := Pubkey.zero,
        amm_open_orders := Pubkey.zero,
        amm_target_orders := some Pubkey.zero,
        pool_coin_token_account := Pubkey.zero,
        pool_pc_token_account := Pubkey.zero,
        serum_program := Pubkey.zero,
        serum_market := Pubkey.zero,
        serum_bids := Pubkey.zero,
        serum_asks := Pubkey.zero,
        serum_event_queue := Pubkey.zero,
        serum_coin_vault_account := Pubkey.zero,
        serum_pc_vault_account := Pubkey.zero,
        serum_vault_signer := Pubkey.zero,
        user_source_token_account := Pubkey.zero,
        user_destination_token_account := Pubkey.zero,
        user_source_owner := USER_KEY }) := by
  decide

/-- A list of positive length is not empty. -/
theorem isEmpty_false_of_length_pos {l : List Byte} (h : 0 < l.length) :
    l.isEmpty = false := by
  cases l with
  | nil => simp at h
  | cons a as => rfl

/-- A fixed concrete metadata value used by concrete scenarios. -/
def md0 : EventMetadata :=
  { signature := 0, slot := 0, tx_index := 0, block_time_us := 0, grpc_recv_us := 0 }

/-- A 72-byte all-zero account not owned by PumpSwap and without the
nonce magic. -/
def acct72 : Accounts.AccountData :=
  { pubkey := Pubkey.zero, executable := false, lamports := 0,
    owner := Pubkey.zero, rent_epoch := 0, data := List.replicate 72 0 }

/-- Claim C4, counterexample.  An account whose data length is 72 — so
at most 100 — and which is neither PumpSwap-owned nor nonce-magic IS
emitted as a `TokenAccount` event: the mint decoder fails (`len < 82`)
and `parse_token_account` falls through to the token-account decoder,
contradicting the claim that no account with `len ≤ 100` is ever
emitted as `TokenAccount`. -/
theorem c4_short_account_emitted_as_token_account :
    acct72.data.length ≤ 100 ∧
    Accounts.parse_account_unified (fun _ _ => none) acct72 md0 none =
      some (.TokenAccount {
        metadata := md0, pubkey := Pubkey.zero, executable := false,
        lamports := 0, owner := Pubkey.zero, rent_epoch := 0,
        amount := some 0, token_owner := Pubkey.zero }) := by
  constructor <;> decide

/-- Claim C4, amended.  For accounts that are not PumpSwap-owned and do
not carry the nonce magic: data shorter than 72 bytes yields absence;
data of length 72..81 is emitted as `TokenAccount` (the mint decoder
fails and control falls through); data of length 82..100 is emitted as
`TokenInfo`; data longer than 100 bytes goes straight to the
token-account path and is emitted as `TokenAccount`. -/
theorem c4_token_mint_path_characterization
    (psParse : Accounts.AccountData → EventMetadata → Option DexEvent)
    (account : Accounts.AccountData) (metadata : EventMetadata)
    (f : Option Unit)
    (hps : account.owner ≠ Accounts.PUMPSWAP_PROGRAM_ID)
    (hn : Accounts.is_nonce_account account.data = false) :
    (account.data.length < 72 →
      Accounts.parse_account_unified psParse account metadata f = none) ∧
    (72 ≤ account.data.length → account.data.length < 82 →
      ∃ e, Accounts.parse_account_unified psParse account metadata f =
        some (.TokenAccount e)) ∧
    (82 ≤ account.data.length → account.data.length ≤ 100 →
      ∃ e, Accounts.parse_account_unified psParse account metadata f =
        some (.TokenInfo e)) ∧
    (100 < account.data.length →
      ∃ e, Accounts.parse_account_unified psParse account metadata f =
        some (.TokenAccount e)) := by
  refine ⟨?_, ?_, ?_, ?_⟩
  · intro h1
    by_cases h0 : account.data.isEmpty
    · simp [Accounts.parse_account_unified, h0]
    · simp only [Accounts.parse_account_unified, if_neg h0, if_neg hps, hn,
        Bool.false_eq_true, if_false]
      simp [Accounts.parse_token_account, Accounts.parse_mint_fast,
        Accounts.parse_token_fast, show account.data.length ≤ 100 by omega,
        show account.data.length < 82 by omega,
        show account.data.length < 64 + 8 by omega]
  · intro h1 h2
    have h0 : account.data.isEmpty = false :=
      isEmpty_false_of_length_pos (by omega)
    refine ⟨⟨metadata, account.pubkey, account.executable, account.lamports,
      account.owner, account.rent_epoch,
      some (leNat (sliceBytes account.data 64 8)), account.owner⟩, ?_⟩
    simp only [Accounts.parse_account_unified, h0, Bool.false_eq_true,
      if_false, if_neg hps, hn]
    simp [Accounts.parse_token_account, Accounts.parse_mint_fast,
      Accounts.parse_token_fast, show account.data.length ≤ 100 by omega,
      show account.data.length < 82 by omega,
      show ¬account.data.length < 64 + 8 by omega]
  · intro h1 h2
    have h0 : account.data.isEmpty = false :=
      isEmpty_false_of_length_pos (by omega)
    refine ⟨⟨metadata, account.pubkey, account.executable, account.lamports,
      account.owner, account.rent_epoch,
      leNat (sliceBytes account.data 36 8), account.data.getD 44 0⟩, ?_⟩
    simp only [Accounts.parse_account_unified, h0, Bool.false_eq_true,
      if_false, if_neg hps, hn]
    simp [Accounts.parse_token_account, Accounts.parse_mint_fast,
      h2, show ¬account.data.length < 82 by omega]
  · intro h1
    have h0 : account.data.isEmpty = false :=
      isEmpty_false_of_length_pos (by omega)
    refine ⟨⟨metadata, account.pubkey, account.executable, account.lamports,
      account.owner, account.rent_epoch,
      some (leNat (sliceBytes account.data 64 8)), account.owner⟩, ?_⟩
    simp only [Accounts.parse_account_unified, h0, Bool.false_eq_true,
      if_false, if_neg hps, hn]
    simp [Accounts.parse_token_account, Accounts.parse_token_fast,
      show ¬account.data.length ≤ 100 by omega,
      show ¬account.data.length < 64 + 8 by omega]

/-- Witness for the amended C4 theorem at concrete inputs. -/
theorem c4_token_mint_path_characterization_witness :
    (∃ e, Accounts.parse_account_unified (fun _ _ => none) acct72 md0 none =
      some (.TokenAccount e)) := by
  exact (c4_token_mint_path_characterization (fun _ _ => none) acct72 md0 none
    (by decide) (by decide)).2.1 (by decide) (by decide)

/-- Claim C5.  For accounts that are not PumpSwap-owned and do not carry
the nonce magic: length 82..100 yields `TokenInfo` with `supply` the
little-endian `u64` at offset 36 and `decimals` the byte at offset 44;
length above 100 yields `TokenAccount` with `amount` the little-endian
`u64` at offset 64 and `token_owner` equal to the owning program
`account.owner`. -/
theorem c5_token_field_extraction
    (psParse : Accounts.AccountData → EventMetadata → Option DexEvent)
    (account : Accounts.AccountData) (metadata : EventMetadata)
    (f : Option Unit)
    (hps : account.owner ≠ Accounts.PUMPSWAP_PROGRAM_ID)
    (hn : Accounts.is_nonce_account account.data = false) :
    (82 ≤ account.data.length → account.data.length ≤ 100 →
      Accounts.parse_account_unified psParse account metadata f =
        some (.TokenInfo {
          metadata,
          pubkey := account.pubkey,
          executable := account.executable,
          lamports := account.lamports,
          owner := account.owner,
          rent_epoch := account.rent_epoch,
          supply := leNat (sliceBytes account.data 36 8),
          decimals := account.data.getD 44 0 })) ∧
    (100 < account.data.length →
      Accounts.parse_account_unified psParse account metadata f =
        some (.TokenAccount {
          metadata,
          pubkey := account.pubkey,
          executable := account.executable,
          lamports := account.lamports,
          owner := account.owner,
          rent_epoch := account.rent_epoch,
          amount := some (leNat (sliceBytes account.data 64 8)),
          token_owner := account.owner })) := by
  constructor
  · intro h1 h2
    have h0 : account.data.isEmpty = false :=
      isEmpty_false_of_length_pos (by omega)
    simp only [Accounts.parse_account_unified, h0, Bool.false_eq_true,
      if_false, if_neg hps, hn]
    simp [Accounts.parse_token_account, Accounts.parse_mint_fast,
      h2, show ¬account.data.length < 82 by omega]
  · intro h1
    have h0 : account.data.isEmpty = false :=
      isEmpty_false_of_length_pos (by omega)
    simp only [Accounts.parse_account_unified, h0, Bool.false_eq_true,
      if_false, if_neg hps, hn]
    simp [Accounts.parse_token_account, Accounts.parse_token_fast,
      show ¬account.data.length ≤ 100 by omega,
      show ¬account.data.length < 64 + 8 by omega]

/-- An 82-byte mint account: supply 1_000_000 at offset 36, decimals 6
at offset 44. -/
def mintAcct82 : Accounts.AccountData :=
  { pubkey := Pubkey.zero, executable := false, lamports := 0,
    owner := Pubkey.zero, rent_epoch := 0,
    data := List.replicate 36 0 ++ leBytes 8 1000000 ++ [6] ++ List.replicate 37 0 }

/-- A 165-byte token account: amount 500 at offset 64. -/
def tokenAcct165 : Accounts.AccountData :=
  { pubkey := Pubkey.zero, executable := false, lamports := 0,
    owner := Pubkey.zero, rent_epoch := 0,
    data := List.replicate 64 0 ++ leBytes 8 500 ++ List.replicate 93 0 }

/-- Witness for the C5 theorem at concrete 82-byte and 165-byte
accounts. -/
theorem c5_token_field_extraction_witness :
    Accounts.parse_account_unified (fun _ _ => none) mintAcct82 md0 none =
      some (.TokenInfo {
        metadata := md0, pubkey := mintAcct82.pubkey,
        executable := mintAcct82.executable, lamports := mintAcct82.lamports,
        owner := mintAcct82.owner, rent_epoch := mintAcct82.rent_epoch,
        supply := leNat (sliceBytes mintAcct82.data 36 8),
        decimals := mintAcct82.data.getD 44 0 }) ∧
    Accounts.parse_account_unified (fun _ _ => none) tokenAcct165 md0 none =
      some (.TokenAccount {
        metadata := md0, pubkey := tokenAcct165.pubkey,
        executable := tokenAcct165.executable, lamports := tokenAcct165.lamports,
        owner := tokenAcct165.owner, rent_epoch := tokenAcct165.rent_epoch,
        amount := some (leNat (sliceBytes tokenAcct165.data 64 8)),
        token_owner := tokenAcct165.owner }) := by
  constructor
  · exact (c5_token_field_extraction (fun _ _ => none) mintAcct82 md0 none
      (by decide) (by decide)).1 (by decide) (by decide)
  · exact (c5_token_field_extraction (fun _ _ => none) tokenAcct165 md0 none
      (by decide) (by decide)).2 (by decide)

/-- Claim C6.  `parse_nonce_account` emits `Some(NonceAccount)` exactly
when the body parses to the initialized nonce state — with the event's
`nonce` and `authority` the parsed blockhash and authority — and yields
`None` both for a body parsing to the uninitialized state and for a body
that fails to parse. -/
theorem c6_nonce_initialized_iff
    (account : Accounts.AccountData) (metadata : EventMetadata) :
    (∀ authority blockhash fee,
      Accounts.parse_nonce account.data =
          some (.initialized authority blockhash fee) →
        Accounts.parse_nonce_account account metadata =
          some (.NonceAccount {
            metadata,
            pubkey := account.pubkey,
            executable := account.executable,
            lamports := account.lamports,
            owner := account.owner,
            rent_epoch := account.rent_epoch,
            nonce := blockhash,
            authority })) ∧
    (Accounts.parse_nonce account.data = some .uninitialized →
      Accounts.parse_nonce_account account metadata = none) ∧
    (Accounts.parse_nonce account.data = none →
      Accounts.parse_nonce_account account metadata = none) := by
  refine ⟨?_, ?_, ?_⟩
  · intro authority blockhash fee h
    simp [Accounts.parse_nonce_account, h]
  · intro h
    simp [Accounts.parse_nonce_account, h]
  · intro h
    simp [Accounts.parse_nonce_account, h]

/-- An initialized nonce account body: magic `[1,0,0,0,1,0,0,0]`,
authority bytes 3, blockhash bytes 4, zero fee. -/
def nonceAcctInit : Accounts.AccountData :=
  { pubkey := Pubkey.zero, executable := false, lamports := 0,
    owner := Pubkey.zero, rent_epoch := 0,
    data := [1, 0, 0, 0, 1, 0, 0, 0] ++ List.replicate 32 3 ++
      List.replicate 32 4 ++ leBytes 8 0 }

/-- An uninitialized nonce account body (state tag 0). -/
def nonceAcctUninit : Accounts.AccountData :=
  { pubkey := Pubkey.zero, executable := false, lamports := 0,
    owner := Pubkey.zero, rent_epoch := 0,
    data := [1, 0, 0, 0, 0, 0, 0, 0] }

/-- Witness for the C6 theorem: an initialized body emits the event
with the parsed authority and blockhash, an uninitialized body emits
nothing. -/
theorem c6_nonce_initialized_iff_witness :
    Accounts.parse_nonce_account nonceAcctInit md0 =
      some (.NonceAccount {
        metadata := md0,
        pubkey := nonceAcctInit.pubkey,
        executable := nonceAcctInit.executable,
        lamports := nonceAcctInit.lamports,
        owner := nonceAcctInit.owner,
        rent_epoch := nonceAcctInit.rent_epoch,
        nonce := List.replicate 32 4,
        authority := List.replicate 32 3 }) ∧
    Accounts.parse_nonce_account nonceAcctUninit md0 = none := by
  constructor
  · exact (c6_nonce_initialized_iff nonceAcctInit md0).1
      (List.replicate 32 3) (List.replicate 32 4) 0 (by decide)
  · exact (c6_nonce_initialized_iff nonceAcctUninit md0).2.1 (by decide)

/-- Claim C2, counterexample.  A valid Orca Whirlpool Traded record body
of 114 zero bytes still decodes after dropping its last byte: the
decoder only needs the first 113 bytes, so truncating a longer-than-
minimal valid record does NOT cause absence, contradicting the claim
that shortening any valid record by one byte yields `None`. -/
theorem c2_truncated_record_still_decodes :
    (OrcaLog.parse_traded_event (List.replicate 114 0) 0 0 0 none 0).isSome = true ∧
    (OrcaLog.parse_traded_event ((List.replicate 114 0).take 113) 0 0 0 none 0).isSome
      = true := by
  constructor <;> decide

/-- Claim C2, amended.  Truncation causes absence exactly when it takes
the record below the decoder's length requirement: the Orca Traded
decoder returns `None` for every body shorter than its 113 summed field
bytes (so a minimal valid record truncated by one byte yields absence —
the concrete third conjunct), and the PumpSwap Buy decoder returns
`None` for every body shorter than its checked `BUY_REQUIRED_LEN`; a
truncated record still at or above the bound may still decode. -/
theorem c2_short_record_yields_absence :
    (∀ data signature slot tx_index block_time_us grpc_recv_us,
      data.length < 113 →
        OrcaLog.parse_traded_event data signature slot tx_index
          block_time_us grpc_recv_us = none) ∧
    (∀ data signature slot tx_index block_time_us grpc_recv_us,
      data.length < PumpAmmLog.BUY_REQUIRED_LEN →
        PumpAmmLog.parse_buy_event_optimized data signature slot tx_index
          block_time_us grpc_recv_us = RunResult.ok none) ∧
    OrcaLog.parse_traded_event ((List.replicate 113 0).take 112) 0 0 0 none 0
      = none := by
  refine ⟨?_, ?_, by decide⟩
  · intro data s sl tx bt g h
    have h105 : read_u64_le data 105 = none := by
      unfold read_u64_le
      rw [if_neg (by omega)]
    unfold OrcaLog.parse_traded_event
    rcases read_pubkey data 0 with _ | w
    · rfl
    rcases read_bool data 32 with _ | ab
    · rfl
    rcases read_u128_le data 33 with _ | p0
    · rfl
    rcases read_u128_le data 49 with _ | p1
    · rfl
    rcases read_u64_le data 65 with _ | ia
    · rfl
    rcases read_u64_le data 73 with _ | oa
    · rfl
    rcases read_u64_le data 81 with _ | itf
    · rfl
    rcases read_u64_le data 89 with _ | otf
    · rfl
    rcases read_u64_le data 97 with _ | lf
    · rfl
    simp [h105]
  · intro data s sl tx bt g h
    unfold PumpAmmLog.parse_buy_event_optimized
    rw [if_pos h]

/-- Witness for the amended C2 theorem at concrete short records. -/
theorem c2_short_record_yields_absence_witness :
    OrcaLog.parse_traded_event (List.replicate 50 0) 0 0 0 none 0 = none ∧
    PumpAmmLog.parse_buy_event_optimized (List.replicate 50 0) 0 0 0 none 0 =
      RunResult.ok none :=
  ⟨c2_short_record_yields_absence.1 (List.replicate 50 0) 0 0 0 none 0 (by decide),
   c2_short_record_yields_absence.2.1 (List.replicate 50 0) 0 0 0 none 0 (by decide)⟩

/-- A 385-byte PumpSwap Buy record body whose `track_volume` byte at
offset 352 is the nonzero value 2. -/
def buyBody385Two : List Byte := List.replicate 352 0 ++ 2 :: List.replicate 32 0

/-- The same body with byte value 1 at offset 352. -/
def buyBody385One : List Byte := List.replicate 352 0 ++ 1 :: List.replicate 32 0

/-- Claim C8, counterexample.  `track_volume` at record offset 352 is
decoded with `read_bool_unchecked`, which compares the byte with 1; on
a record whose byte 352 is the nonzero value 2 the decoder emits the
event with `track_volume = false`, contradicting the claim that every
nonzero byte decodes to true. -/
theorem c8_nonzero_track_volume_byte_decodes_false :
    buyBody385Two.getD 352 0 = 2 ∧
    PumpAmmLog.parse_buy_event_optimized buyBody385Two 0 0 0 none 0 =
      RunResult.ok (some (.PumpSwapBuy {
        metadata := md0, timestamp := 0, base_amount_out := 0,
        max_quote_amount_in := 0, user_base_token_reserves := 0,
        user_quote_token_reserves := 0, pool_base_token_reserves := 0,
        pool_quote_token_reserves := 0, quote_amount_in := 0,
        lp_fee_basis_points := 0, lp_fee := 0,
        protocol_fee_basis_points := 0, protocol_fee := 0,
        quote_amount_in_with_lp_fee := 0, user_quote_amount_in := 0,
        pool := Pubkey.zero, user := Pubkey.zero,
        user_base_token_account := Pubkey.zero,
        user_quote_token_account := Pubkey.zero,
        protocol_fee_recipient := Pubkey.zero,
        protocol_fee_recipient_token_account := Pubkey.zero,
        coin_creator := Pubkey.zero,
        coin_creator_fee_basis_points := 0, coin_creator_fee := 0,
        track_volume := false,
        total_unclaimed_tokens := 0, total_claimed_tokens := 0,
        current_sol_volume := 0, last_update_timestamp := 0 })) := by
  constructor <;> decide

/-- Claim C8, amended.  The bounds-checked bool reader decodes any
nonzero byte to true, but the PumpSwap log's unchecked bool reader —
the one behind `track_volume` — decodes a byte to true exactly when it
equals 1; on the same 385-byte record the decoder yields
`track_volume = true` for byte value 1 at offset 352 (third conjunct)
and `false` for the nonzero value 2. -/
theorem c8_bool_reader_semantics :
    (∀ data off b, data.get? off = some b →
      read_bool data off = some (b != 0)) ∧
    (∀ data off b, data.get? off = some b →
      PumpAmmLog.read_bool_unchecked data off = RunResult.ok (b == 1)) ∧
    PumpAmmLog.parse_buy_event_optimized buyBody385One 0 0 0 none 0 =
      RunResult.ok (some (.PumpSwapBuy {
        metadata := md0, timestamp := 0, base_amount_out := 0,
        max_quote_amount_in := 0, user_base_token_reserves := 0,
        user_quote_token_reserves := 0, pool_base_token_reserves := 0,
        pool_quote_token_reserves := 0, quote_amount_in := 0,
        lp_fee_basis_points := 0, lp_fee := 0,
        protocol_fee_basis_points := 0, protocol_fee := 0,
        quote_amount_in_with_lp_fee := 0, user_quote_amount_in := 0,
        pool := Pubkey.zero, user := Pubkey.zero,
        user_base_token_account := Pubkey.zero,
        user_quote_token_account := Pubkey.zero,
        protocol_fee_recipient := Pubkey.zero,
        protocol_fee_recipient_token_account := Pubkey.zero,
        coin_creator := Pubkey.zero,
        coin_creator_fee_basis_points := 0, coin_creator_fee := 0,
        track_volume := true,
        total_unclaimed_tokens := 0, total_claimed_tokens := 0,
        current_sol_volume := 0, last_update_timestamp := 0 })) := by
  refine ⟨?_, ?_, by decide⟩
  · intro data off b h
    unfold read_bool
    rw [h]
    rfl
  · intro data off b h
    obtain ⟨hlt, _⟩ := List.get?_eq_some.mp h
    unfold PumpAmmLog.read_bool_unchecked
    rw [if_pos (by omega), List.getD_eq_getElem?_getD, ← List.get?_eq_getElem?, h]
    rfl

/-- Witness for the C8 bool-reader theorem at a concrete one-byte
buffer holding the value 5. -/
theorem c8_bool_reader_semantics_witness :
    read_bool [5] 0 = some (5 != 0) ∧
    PumpAmmLog.read_bool_unchecked [5] 0 = RunResult.ok (5 == 1) :=
  ⟨c8_bool_reader_semantics.1 [5] 0 5 (by decide),
   c8_bool_reader_semantics.2.1 [5] 0 5 (by decide)⟩

/-- SwapBaseIn yields nothing when the identity slot 1 is missing. -/
theorem swap_base_in_none_of_no_amm {accounts : List Pubkey}
    (data : List Byte) (s sl tx : Nat) (bt : Option Int) (now : Int)
    (hacc : get_account accounts 1 = none) :
    RaydiumAmm.parse_swap_base_in_instruction data accounts s sl tx bt now = none := by
  unfold RaydiumAmm.parse_swap_base_in_instruction
  rcases read_u64_le data 0 with _ | a
  · rfl
  rcases read_u64_le data 8 with _ | b
  · rfl
  simp [hacc]

/-- SwapBaseOut yields nothing when the identity slot 1 is missing. -/
theorem swap_base_out_none_of_no_amm {accounts : List Pubkey}
    (data : List Byte) (s sl tx : Nat) (bt : Option Int) (now : Int)
    (hacc : get_account accounts 1 = none) :
    RaydiumAmm.parse_swap_base_out_instruction data accounts s sl tx bt now = none := by
  unfold RaydiumAmm.parse_swap_base_out_instruction
  rcases read_u64_le data 0 with _ | a
  · rfl
  rcases read_u64_le data 8 with _ | b
  · rfl
  simp [hacc]

/-- Deposit yields nothing when the identity slot 1 is missing. -/
theorem deposit_none_of_no_amm {accounts : List Pubkey}
    (data : List Byte) (s sl tx : Nat) (bt : Option Int) (now : Int)
    (hacc : get_account accounts 1 = none) :
    RaydiumAmm.parse_deposit_instruction data accounts s sl tx bt now = none := by
  unfold RaydiumAmm.parse_deposit_instruction
  rcases read_u64_le data 0 with _ | a
  · rfl
  rcases read_u64_le data 8 with _ | b
  · rfl
  rcases read_u64_le data 16 with _ | c
  · rfl
  simp [hacc]

/-- Withdraw yields nothing when the identity slot 1 is missing. -/
theorem withdraw_none_of_no_amm {accounts : List Pubkey}
    (data : List Byte) (s sl tx : Nat) (bt : Option Int) (now : Int)
    (hacc : get_account accounts 1 = none) :
    RaydiumAmm.parse_withdraw_instruction data accounts s sl tx bt now = none := by
  unfold RaydiumAmm.parse_withdraw_instruction
  rcases read_u64_le data 0 with _ | a
  · rfl
  simp [hacc]

/-- WithdrawPnl yields nothing when the identity slot 1 is missing. -/
theorem withdraw_pnl_none_of_no_amm {accounts : List Pubkey}
    (data : List Byte) (s sl tx : Nat) (bt : Option Int) (now : Int)
    (hacc : get_account accounts 1 = none) :
    RaydiumAmm.parse_withdraw_pnl_instruction data accounts s sl tx bt now = none := by
  unfold RaydiumAmm.parse_withdraw_pnl_instruction
  simp [hacc]

/-- Initialize2 yields nothing when the identity slot 4 is missing. -/
theorem initialize2_none_of_no_amm {accounts : List Pubkey}
    (data : List Byte) (s sl tx : Nat) (bt : Option Int) (now : Int)
    (hacc : get_account accounts 4 = none) :
    RaydiumAmm.parse_initialize2_instruction data accounts s sl tx bt now = none := by
  unfold RaydiumAmm.parse_initialize2_instruction
  rcases data.get? 0 with _ | nz
  · rfl
  rcases read_u64_le data 1 with _ | a
  · rfl
  rcases read_u64_le data 9 with _ | b
  · rfl
  rcases read_u64_le data 17 with _ | c
  · rfl
  simp [hacc]

/-- Claim C7, counterexample.  With only slots 0 and 1 supplied, the
SwapBaseIn decoder still emits its event, but the missing non-identity
slot 4 — `amm_target_orders` — is left absent (`none`), not set to the
zero public key as the claim states for every missing non-identity
field. -/
theorem c7_missing_target_orders_left_absent :
    RaydiumAmm.parse_instruction c3_payload [Pubkey.zero, AMM_POOL_KEY]
        0 0 0 none 0 =
      some (.RaydiumAmmV4Swap {
        metadata := { signature := 0, slot := 0, tx_index := 0,
                      block_time_us := 0, grpc_recv_us := 0 },
        amount_in := 1000000,
        minimum_amount_out := 950000,
        max_amount_in := 0,
        amount_out := 0,
        token_program := Pubkey.zero,
        amm := AMM_POOL_KEY,
        amm_authority := Pubkey.zero,
        amm_open_orders := Pubkey.zero,
        amm_target_orders := none,
        pool_coin_token_account := Pubkey.zero,
        pool_pc_token_account := Pubkey.zero,
        serum_program := Pubkey.zero,
        serum_market := Pubkey.zero,
        serum_bids := Pubkey.zero,
        serum_asks := Pubkey.zero,
        serum_event_queue := Pubkey.zero,
        serum_coin_vault_account := Pubkey.zero,
        serum_pc_vault_account := Pubkey.zero,
        serum_vault_signer := Pubkey.zero,
        user_source_token_account := Pubkey.zero,
        user_destination_token_account := Pubkey.zero,
        user_source_owner := Pubkey.zero }) ∧
    (none : Option Pubkey) ≠ some Pubkey.zero := by
  constructor <;> decide

/-- Claim C7, amended.  Missing primary identity slot → no event:
with at most one account every Raydium AMM V4 variant (identity at
index 1, or 4 for Initialize2) yields `none`, Initialize2 yields `none`
with at most four accounts, and every PumpSwap instruction variant
(identity at index 0) yields `none` on an empty account list.  When the
identity slot is present and the payload reads succeed, the event is
emitted with each missing non-identity `Pubkey` field falling back to
the zero public key — except `amm_target_orders` of the swap variants,
an optional field that simply receives `accounts[4]` and is left absent
when that slot is missing. -/
theorem c7_identity_slot_and_zero_fallback :
    (∀ (data : List Byte) (accounts : List Pubkey) (s sl tx : Nat)
        (bt : Option Int) (now : Int), accounts.length ≤ 1 →
      RaydiumAmm.parse_instruction data accounts s sl tx bt now = none) ∧
    (∀ (data : List Byte) (accounts : List Pubkey) (s sl tx : Nat)
        (bt : Option Int) (now : Int), accounts.length ≤ 4 →
      RaydiumAmm.parse_initialize2_instruction data accounts s sl tx bt now = none) ∧
    (∀ (data : List Byte) (s sl tx : Nat) (bt : Option Int) (now : Int),
      PumpAmmInstr.parse_instruction data [] s sl tx bt now = none) ∧
    (∀ (data : List Byte) (accounts : List Pubkey) (s sl tx : Nat)
        (bt : Option Int) (now : Int) (a b : Nat) (k : Pubkey),
      read_u64_le data 0 = some a → read_u64_le data 8 = some b →
      get_account accounts 1 = some k →
      RaydiumAmm.parse_swap_base_in_instruction data accounts s sl tx bt now =
        some (.RaydiumAmmV4Swap {
          metadata := create_metadata_simple s sl tx bt k now,
          amount_in := a,
          minimum_amount_out := b,
          max_amount_in := 0,
          amount_out := 0,
          token_program := (get_account accounts 0).getD Pubkey.zero,
          amm := k,
          amm_authority := (get_account accounts 2).getD Pubkey.zero,
          amm_open_orders := (get_account accounts 3).getD Pubkey.zero,
          amm_target_orders := get_account accounts 4,
          pool_coin_token_account := (get_account accounts 5).getD Pubkey.zero,
          pool_pc_token_account := (get_account accounts 6).getD Pubkey.zero,
          serum_program := (get_account accounts 7).getD Pubkey.zero,
          serum_market := (get_account accounts 8).getD Pubkey.zero,
          serum_bids := (get_account accounts 9).getD Pubkey.zero,
          serum_asks := (get_account accounts 10).getD Pubkey.zero,
          serum_event_queue := (get_account accounts 11).getD Pubkey.zero,
          serum_coin_vault_account := (get_account accounts 12).getD Pubkey.zero,
          serum_pc_vault_account := (get_account accounts 13).getD Pubkey.zero,
          serum_vault_signer := (get_account accounts 14).getD Pubkey.zero,
          user_source_token_account := (get_account accounts 15).getD Pubkey.zero,
          user_destination_token_account := (get_account accounts 16).getD Pubkey.zero,
          user_source_owner := (get_account accounts 17).getD Pubkey.zero })) ∧
    (∀ (data : List Byte) (accounts : List Pubkey) (s sl tx : Nat)
        (bt : Option Int) (now : Int) (sol slip : Nat) (mint : Pubkey),
      read_u64_le data 0 = some sol → read_u16_le data 8 = some slip →
      get_account accounts 0 = some mint →
      PumpAmmInstr.parse_buy_instruction data accounts s sl tx bt now =
        some (.PumpSwapBuyInstr {
          metadata := create_metadata_simple s sl tx bt mint now,
          pool_id := (get_account accounts 1).getD Pubkey.zero,
          user := (get_account accounts 2).getD Pubkey.zero,
          token_mint := mint,
          sol_amount := sol,
          token_amount := 0,
          price := 0,
          slippage := slip })) := by
  refine ⟨?_, ?_, ?_, ?_, ?_⟩
  · intro data accounts s sl tx bt now h
    have h1 : get_account accounts 1 = none := by
      unfold get_account
      rw [List.get?_eq_none]
      omega
    have h4 : get_account accounts 4 = none := by
      unfold get_account
      rw [List.get?_eq_none]
      omega
    cases data with
    | nil => rfl
    | cons b rest =>
      cases hb : RaydiumAmm.RaydiumAmmV4Instruction.from_u8 b with
      | none => simp [RaydiumAmm.parse_instruction, hb]
      | some ty =>
        cases ty <;> simp only [RaydiumAmm.parse_instruction, hb]
        · exact initialize2_none_of_no_amm rest s sl tx bt now h4
        · exact deposit_none_of_no_amm rest s sl tx bt now h1
        · exact withdraw_none_of_no_amm rest s sl tx bt now h1
        · exact withdraw_pnl_none_of_no_amm rest s sl tx bt now h1
        · exact swap_base_in_none_of_no_amm rest s sl tx bt now h1
        · exact swap_base_out_none_of_no_amm rest s sl tx bt now h1
  · intro data accounts s sl tx bt now h
    have h4 : get_account accounts 4 = none := by
      unfold get_account
      rw [List.get?_eq_none]
      omega
    exact initialize2_none_of_no_amm data s sl tx bt now h4
  · intro data s sl tx bt now
    unfold PumpAmmInstr.parse_instruction
    by_cases hlen : data.length < 8
    · rw [if_pos hlen]
    · rw [if_neg hlen]
      have h0 : get_account ([] : List Pubkey) 0 = none := rfl
      by_cases hbuy : data.take 8 = PumpAmmInstr.BUY_DISC
      · rw [if_pos hbuy]
        unfold PumpAmmInstr.parse_buy_instruction
        rcases read_u64_le (data.drop 8) 0 with _ | a
        · rfl
        rcases read_u16_le (data.drop 8) 8 with _ | b
        · rfl
        simp [h0]
      rw [if_neg hbuy]
      by_cases hsell : data.take 8 = PumpAmmInstr.SELL_DISC
      · rw [if_pos hsell]
        unfold PumpAmmInstr.parse_sell_instruction
        rcases read_u64_le (data.drop 8) 0 with _ | a
        · rfl
        rcases read_u16_le (data.drop 8) 8 with _ | b
        · rfl
        simp [h0]
      rw [if_neg hsell]
      by_cases hcp : data.take 8 = PumpAmmInstr.CREATE_POOL_DISC
      · rw [if_pos hcp]
        unfold PumpAmmInstr.parse_create_pool_instruction
        rcases read_u64_le (data.drop 8) 0 with _ | a
        · rfl
        rcases read_u64_le (data.drop 8) 8 with _ | b
        · rfl
        simp [h0]
      rw [if_neg hcp]
  · intro data accounts s sl tx bt now a b k ha hb hk
    unfold RaydiumAmm.parse_swap_base_in_instruction
    rw [ha, hb, hk]
    rfl
  · intro data accounts s sl tx bt now sol slip mint hs hsl hm
    unfold PumpAmmInstr.parse_buy_instruction
    rw [hs, hsl, hm]
    rfl

/-- Witness for the amended C7 theorem at concrete inputs. -/
theorem c7_identity_slot_and_zero_fallback_witness :
    RaydiumAmm.parse_instruction c3_payload [Pubkey.zero] 0 0 0 none 0 = none ∧
    RaydiumAmm.parse_initialize2_instruction (List.replicate 25 0)
      (List.replicate 4 Pubkey.zero) 0 0 0 none 0 = none ∧
    PumpAmmInstr.parse_instruction (PumpAmmInstr.BUY_DISC ++ List.replicate 10 0)
      [] 0 0 0 none 0 = none ∧
    RaydiumAmm.parse_swap_base_in_instruction (leBytes 8 1 ++ leBytes 8 2)
      [Pubkey.zero, AMM_POOL_KEY] 0 0 0 none 0 =
      some (.RaydiumAmmV4Swap {
        metadata := create_metadata_simple 0 0 0 none AMM_POOL_KEY 0,
        amount_in := 1,
        minimum_amount_out := 2,
        max_amount_in := 0,
        amount_out := 0,
        token_program := (get_account [Pubkey.zero, AMM_POOL_KEY] 0).getD Pubkey.zero,
        amm := AMM_POOL_KEY,
        amm_authority := (get_account [Pubkey.zero, AMM_POOL_KEY] 2).getD Pubkey.zero,
        amm_open_orders := (get_account [Pubkey.zero, AMM_POOL_KEY] 3).getD Pubkey.zero,
        amm_target_orders := get_account [Pubkey.zero, AMM_POOL_KEY] 4,
        pool_coin_token_account := (get_account [Pubkey.zero, AMM_POOL_KEY] 5).getD Pubkey.zero,
        pool_pc_token_account := (get_account [Pubkey.zero, AMM_POOL_KEY] 6).getD Pubkey.zero,
        serum_program := (get_account [Pubkey.zero, AMM_POOL_KEY] 7).getD Pubkey.zero,
        serum_market := (get_account [Pubkey.zero, AMM_POOL_KEY] 8).getD Pubkey.zero,
        serum_bids := (get_account [Pubkey.zero, AMM_POOL_KEY] 9).getD Pubkey.zero,
        serum_asks := (get_account [Pubkey.zero, AMM_POOL_KEY] 10).getD Pubkey.zero,
        serum_event_queue := (get_account [Pubkey.zero, AMM_POOL_KEY] 11).getD Pubkey.zero,
        serum_coin_vault_account := (get_account [Pubkey.zero, AMM_POOL_KEY] 12).getD Pubkey.zero,
        serum_pc_vault_account := (get_account [Pubkey.zero, AMM_POOL_KEY] 13).getD Pubkey.zero,
        serum_vault_signer := (get_account [Pubkey.zero, AMM_POOL_KEY] 14).getD Pubkey.zero,
        user_source_token_account := (get_account [Pubkey.zero, AMM_POOL_KEY] 15).getD Pubkey.zero,
        user_destination_token_account := (get_account [Pubkey.zero, AMM_POOL_KEY] 16).getD Pubkey.zero,
        user_source_owner := (get_account [Pubkey.zero, AMM_POOL_KEY] 17).getD Pubkey.zero }) :=
  ⟨c7_identity_slot_and_zero_fallback.1 c3_payload [Pubkey.zero] 0 0 0 none 0 (by decide),
   c7_identity_slot_and_zero_fallback.2.1 (List.replicate 25 0)
     (List.replicate 4 Pubkey.zero) 0 0 0 none 0 (by decide),
   c7_identity_slot_and_zero_fallback.2.2.1
     (PumpAmmInstr.BUY_DISC ++ List.replicate 10 0) 0 0 0 none 0,
   c7_identity_slot_and_zero_fallback.2.2.2.1 (leBytes 8 1 ++ leBytes 8 2)
     [Pubkey.zero, AMM_POOL_KEY] 0 0 0 none 0 1 2 AMM_POOL_KEY
     (by decide) (by decide) (by decide)⟩

/-- Erase the receive-time stamp of a metadata record. -/
def stripMeta (m : EventMetadata) : EventMetadata :=
  { m with grpc_recv_us := 0 }

/-- Erase the receive-time stamp of an event, leaving every other field
untouched. -/
def stripEvent : DexEvent → DexEvent
  | .PumpSwapBuy e => .PumpSwapBuy { e with metadata := stripMeta e.metadata }
  | .OrcaWhirlpoolSwap e => .OrcaWhirlpoolSwap { e with metadata := stripMeta e.metadata }
  | .RaydiumAmmV4Swap e => .RaydiumAmmV4Swap { e with metadata := stripMeta e.metadata }
  | .RaydiumAmmV4Deposit e => .RaydiumAmmV4Deposit { e with metadata := stripMeta e.metadata }
  | .RaydiumAmmV4Withdraw e => .RaydiumAmmV4Withdraw { e with metadata := stripMeta e.metadata }
  | .RaydiumAmmV4Initialize2 e => .RaydiumAmmV4Initialize2 { e with metadata := stripMeta e.metadata }
  | .RaydiumAmmV4WithdrawPnl e => .RaydiumAmmV4WithdrawPnl { e with metadata := stripMeta e.metadata }
  | .PumpSwapBuyInstr e => .PumpSwapBuyInstr { e with metadata := stripMeta e.metadata }
  | .PumpSwapSellInstr e => .PumpSwapSellInstr { e with metadata := stripMeta e.metadata }
  | .PumpSwapCreatePoolInstr e => .PumpSwapCreatePoolInstr { e with metadata := stripMeta e.metadata }
  | .TokenInfo e => .TokenInfo { e with metadata := stripMeta e.metadata }
  | .TokenAccount e => .TokenAccount { e with metadata := stripMeta e.metadata }
  | .NonceAccount e => .NonceAccount { e with metadata := stripMeta e.metadata }

/-- Erase the receive-time stamp of an optional decode result. -/
def stripOpt (r : Option DexEvent) : Option DexEvent :=
  r.map stripEvent

/-- SwapBaseIn depends on the clock only through `grpc_recv_us`. -/
theorem stripOpt_swap_base_in (data : List Byte) (accounts : List Pubkey)
    (s sl tx : Nat) (bt : Option Int) (n1 n2 : Int) :
    stripOpt (RaydiumAmm.parse_swap_base_in_instruction data accounts s sl tx bt n1) =
      stripOpt (RaydiumAmm.parse_swap_base_in_instruction data accounts s sl tx bt n2) := by
  unfold RaydiumAmm.parse_swap_base_in_instruction
  rcases read_u64_le data 0 with _ | a
  · rfl
  rcases read_u64_le data 8 with _ | b
  · rfl
  rcases get_account accounts 1 with _ | k
  · rfl
  rfl

/-- SwapBaseOut depends on the clock only through `grpc_recv_us`. -/
theorem stripOpt_swap_base_out (data : List Byte) (accounts : List Pubkey)
    (s sl tx : Nat) (bt : Option Int) (n1 n2 : Int) :
    stripOpt (RaydiumAmm.parse_swap_base_out_instruction data accounts s sl tx bt n1) =
      stripOpt (RaydiumAmm.parse_swap_base_out_instruction data accounts s sl tx bt n2) := by
  unfold RaydiumAmm.parse_swap_base_out_instruction
  rcases read_u64_le data 0 with _ | a
  · rfl
  rcases read_u64_le data 8 with _ | b
  · rfl
  rcases get_account accounts 1 with _ | k
  · rfl
  rfl

/-- Deposit depends on the clock only through `grpc_recv_us`. -/
theorem stripOpt_deposit (data : List Byte) (accounts : List Pubkey)
    (s sl tx : Nat) (bt : Option Int) (n1 n2 : Int) :
    stripOpt (RaydiumAmm.parse_deposit_instruction data accounts s sl tx bt n1) =
      stripOpt (RaydiumAmm.parse_deposit_instruction data accounts s sl tx bt n2) := by
  unfold RaydiumAmm.parse_deposit_instruction
  rcases read_u64_le data 0 with _ | a
  · rfl
  rcases read_u64_le data 8 with _ | b
  · rfl
  rcases read_u64_le data 16 with _ | c
  · rfl
  rcases get_account accounts 1 with _ | k
  · rfl
  rfl

/-- Withdraw depends on the clock only through `grpc_recv_us`. -/
theorem stripOpt_withdraw (data : List Byte) (accounts : List Pubkey)
    (s sl tx : Nat) (bt : Option Int) (n1 n2 : Int) :
    stripOpt (RaydiumAmm.parse_withdraw_instruction data accounts s sl tx bt n1) =
      stripOpt (RaydiumAmm.parse_withdraw_instruction data accounts s sl tx bt n2) := by
  unfold RaydiumAmm.parse_withdraw_instruction
  rcases read_u64_le data 0 with _ | a
  · rfl
  rcases get_account accounts 1 with _ | k
  · rfl
  rfl

/-- Initialize2 depends on the clock only through `grpc_recv_us`. -/
theorem stripOpt_initialize2 (data : List Byte) (accounts : List Pubkey)
    (s sl tx : Nat) (bt : Option Int) (n1 n2 : Int) :
    stripOpt (RaydiumAmm.parse_initialize2_instruction data accounts s sl tx bt n1) =
      stripOpt (RaydiumAmm.parse_initialize2_instruction data accounts s sl tx bt n2) := by
  unfold RaydiumAmm.parse_initialize2_instruction
  rcases data.get? 0 with _ | nz
  · rfl
  rcases read_u64_le data 1 with _ | a
  · rfl
  rcases read_u64_le data 9 with _ | b
  · rfl
  rcases read_u64_le data 17 with _ | c
  · rfl
  rcases get_account accounts 4 with _ | k
  · rfl
  rfl

/-- WithdrawPnl depends on the clock only through `grpc_recv_us`. -/
theorem stripOpt_withdraw_pnl (data : List Byte) (accounts : List Pubkey)
    (s sl tx : Nat) (bt : Option Int) (n1 n2 : Int) :
    stripOpt (RaydiumAmm.parse_withdraw_pnl_instruction data accounts s sl tx bt n1) =
      stripOpt (RaydiumAmm.parse_withdraw_pnl_instruction data accounts s sl tx bt n2) := by
  unfold RaydiumAmm.parse_withdraw_pnl_instruction
  rcases get_account accounts 1 with _ | k
  · rfl
  rfl

/-- PumpSwap Buy instruction depends on the clock only through
`grpc_recv_us`. -/
theorem stripOpt_pump_buy (data : List Byte) (accounts : List Pubkey)
    (s sl tx : Nat) (bt : Option Int) (n1 n2 : Int) :
    stripOpt (PumpAmmInstr.parse_buy_instruction data accounts s sl tx bt n1) =
      stripOpt (PumpAmmInstr.parse_buy_instruction data accounts s sl tx bt n2) := by
  unfold PumpAmmInstr.parse_buy_instruction
  rcases read_u64_le data 0 with _ | a
  · rfl
  rcases read_u16_le data 8 with _ | b
  · rfl
  rcases get_account accounts 0 with _ | k
  · rfl
  rfl

/-- PumpSwap Sell instruction depends on the clock only through
`grpc_recv_us`. -/
theorem stripOpt_pump_sell (data : List Byte) (accounts : List Pubkey)
    (s sl tx : Nat) (bt : Option Int) (n1 n2 : Int) :
    stripOpt (PumpAmmInstr.parse_sell_instruction data accounts s sl tx bt n1) =
      stripOpt (PumpAmmInstr.parse_sell_instruction data accounts s sl tx bt n2) := by
  unfold PumpAmmInstr.parse_sell_instruction
  rcases read_u64_le data 0 with _ | a
  · rfl
  rcases read_u16_le data 8 with _ | b
  · rfl
  rcases get_account accounts 0 with _ | k
  · rfl
  rfl

/-- PumpSwap CreatePool instruction depends on the clock only through
`grpc_recv_us`. -/
theorem stripOpt_pump_create_pool (data : List Byte) (accounts : List Pubkey)
    (s sl tx : Nat) (bt : Option Int) (n1 n2 : Int) :
    stripOpt (PumpAmmInstr.parse_create_pool_instruction data accounts s sl tx bt n1) =
      stripOpt (PumpAmmInstr.parse_create_pool_instruction data accounts s sl tx bt n2) := by
  unfold PumpAmmInstr.parse_create_pool_instruction
  rcases read_u64_le data 0 with _ | a
  · rfl
  rcases read_u64_le data 8 with _ | b
  · rfl
  rcases get_account accounts 0 with _ | k
  · rfl
  rfl

/-- Claim C9.  Two runs of the same decoder on byte-identical input with
the same context arguments produce events equal in every field except
`metadata.grpc_recv_us`: the instruction decoders read the clock inside
`create_metadata_simple` (the `n1`/`n2` arguments), and after erasing
the receive-time stamp their outputs coincide for any two clock values;
the log decoders and the account decoder take `grpc_recv_us`
respectively the metadata from the caller's context, so two runs with
the same context arguments coincide outright. -/
theorem c9_determinism_mod_recv_time :
    (∀ (data : List Byte) (accounts : List Pubkey) (s sl tx : Nat)
        (bt : Option Int) (n1 n2 : Int),
      stripOpt (RaydiumAmm.parse_instruction data accounts s sl tx bt n1) =
        stripOpt (RaydiumAmm.parse_instruction data accounts s sl tx bt n2)) ∧
    (∀ (data : List Byte) (accounts : List Pubkey) (s sl tx : Nat)
        (bt : Option Int) (n1 n2 : Int),
      stripOpt (PumpAmmInstr.parse_instruction data accounts s sl tx bt n1) =
        stripOpt (PumpAmmInstr.parse_instruction data accounts s sl tx bt n2)) ∧
    (∀ (data : List Byte) (s sl tx : Nat) (bt : Option Int) (g : Int),
      PumpAmmLog.parse_buy_event_optimized data s sl tx bt g =
        PumpAmmLog.parse_buy_event_optimized data s sl tx bt g) ∧
    (∀ (data : List Byte) (s sl tx : Nat) (bt : Option Int) (g : Int),
      OrcaLog.parse_traded_event data s sl tx bt g =
        OrcaLog.parse_traded_event data s sl tx bt g) ∧
    (∀ (psParse : Accounts.AccountData → EventMetadata → Option DexEvent)
        (account : Accounts.AccountData) (metadata : EventMetadata)
        (f : Option Unit),
      Accounts.parse_account_unified psParse account metadata f =
        Accounts.parse_account_unified psParse account metadata f) := by
  refine ⟨?_, ?_, fun _ _ _ _ _ _ => rfl, fun _ _ _ _ _ _ => rfl,
    fun _ _ _ _ => rfl⟩
  · intro data accounts s sl tx bt n1 n2
    cases data with
    | nil => rfl
    | cons b rest =>
      cases hb : RaydiumAmm.RaydiumAmmV4Instruction.from_u8 b with
      | none => simp [RaydiumAmm.parse_instruction, hb]
      | some ty =>
        cases ty <;> simp only [RaydiumAmm.parse_instruction, hb]
        · exact stripOpt_initialize2 rest accounts s sl tx bt n1 n2
        · exact stripOpt_deposit rest accounts s sl tx bt n1 n2
        · exact stripOpt_withdraw rest accounts s sl tx bt n1 n2
        · exact stripOpt_withdraw_pnl rest accounts s sl tx bt n1 n2
        · exact stripOpt_swap_base_in rest accounts s sl tx bt n1 n2
        · exact stripOpt_swap_base_out rest accounts s sl tx bt n1 n2
  · intro data accounts s sl tx bt n1 n2
    unfold PumpAmmInstr.parse_instruction
    by_cases hlen : data.length < 8
    · rw [if_pos hlen, if_pos hlen]
    · rw [if_neg hlen, if_neg hlen]
      by_cases hbuy : data.take 8 = PumpAmmInstr.BUY_DISC
      · rw [if_pos hbuy, if_pos hbuy]
        exact stripOpt_pump_buy (data.drop 8) accounts s sl tx bt n1 n2
      rw [if_neg hbuy, if_neg hbuy]
      by_cases hsell : data.take 8 = PumpAmmInstr.SELL_DISC
      · rw [if_pos hsell, if_pos hsell]
        exact stripOpt_pump_sell (data.drop 8) accounts s sl tx bt n1 n2
      rw [if_neg hsell, if_neg hsell]
      by_cases hcp : data.take 8 = PumpAmmInstr.CREATE_POOL_DISC
      · rw [if_pos hcp, if_pos hcp]
        exact stripOpt_pump_create_pool (data.drop 8) accounts s sl tx bt n1 n2
      rw [if_neg hcp, if_neg hcp]

end SolParser
